import Mathlib

/-!
Order service: the aggregates of `internal/domain` and the gRPC handler

A shallow embedding of `internal/domain/order.go`, `internal/domain/delivery_address.go` and
`(*OrderHandler).CreateOrder` of `internal/handler/order_handler.go`, together with theorems
about the constructors, the mutators and the validation.

Modelling conventions

* Go `float64` is `Float64`: an IEEE-754 binary64 value given by its class
  (NaN, infinity, finite `(-1)^neg * mant * 2^exp`), with `+` rounded to nearest,
  ties to even, and the IEEE comparisons (every comparison with NaN is false).
* Go `time.Time` is `Time`, an instant in nanoseconds; `time.Now()` is a read of
  an explicit `Clock`, which hands out one reading per call.
* A Go `string` is a `String` (a sequence of Unicode characters, so strings that are not
  valid UTF-8 are left out); `len` counts the bytes of its UTF-8 encoding.
* A pattern of package `regexp` is a `Regex`; the three patterns of the package are anchored
  at both ends, so `MatchString` asks whether the whole string matches.
* A method with a pointer receiver returns the receiver's new value.
* A Go `error` result is `Option Error` (`none` is `nil`); a `(*T, error)` result
  is `Except Error T`.
-/

namespace OrderService

/-! ## float64 -/

/-- IEEE-754 binary64 value. `fin neg mant exp` is `(-1)^neg * mant * 2^exp`; the values
produced by the operations below are the zeros `fin neg 0 0` and the values with
`0 < mant < 2^53` and `-1074 ≤ exp ≤ 971`, where `2^52 ≤ mant` unless `exp = -1074`. -/
inductive Float64 where
  | nan
  | inf (neg : Bool)
  | fin (neg : Bool) (mant : Nat) (exp : Int)
deriving DecidableEq, Repr

namespace Float64

/-- The constant `0.0`. -/
def zero : Float64 := .fin false 0 0

/-- Number of binary digits of `n`, added to `acc` (`fuel` bounds the recursion). -/
def bitLenAux : Nat → Nat → Nat → Nat
  | 0, _, acc => acc
  | fuel + 1, n, acc => if n = 0 then acc else bitLenAux fuel (n / 2) (acc + 1)

/-- Number of binary digits of `n`. -/
def bitLen (n : Nat) : Nat := bitLenAux n n 0

/-- Round the exact value `(-1)^neg * M * 2^E` to binary64, to nearest, ties to even. -/
def round (neg : Bool) (M : Nat) (E : Int) : Float64 :=
  if M = 0 then .fin neg 0 0
  else
    let s : Int := max ((bitLen M : Int) - 53) (-1074 - E)
    if s ≤ 0 then
      if E + s > 971 then .inf neg else .fin neg (M * 2 ^ (-s).toNat) (E + s)
    else
      let k := s.toNat
      let q := M / 2 ^ k
      let r := M % 2 ^ k
      let half := 2 ^ (k - 1)
      let q1 := if r > half ∨ (r = half ∧ q % 2 = 1) then q + 1 else q
      let m := if q1 = 2 ^ 53 then 2 ^ 52 else q1
      let e := if q1 = 2 ^ 53 then E + s + 1 else E + s
      if e > 971 then .inf neg else .fin neg m e

/-- The integer `(-1)^neg * m`. -/
def signed (neg : Bool) (m : Nat) : Int := if neg then -(m : Int) else (m : Int)

/-- Go `x + y` on float64. -/
def add : Float64 → Float64 → Float64
  | .nan, _ => .nan
  | _, .nan => .nan
  | .inf a, .inf b => if a = b then .inf a else .nan
  | .inf a, .fin _ _ _ => .inf a
  | .fin _ _ _, .inf b => .inf b
  | .fin n1 m1 e1, .fin n2 m2 e2 =>
    let e0 := min e1 e2
    let s := signed n1 (m1 * 2 ^ (e1 - e0).toNat) + signed n2 (m2 * 2 ^ (e2 - e0).toNat)
    if s = 0 then .fin (n1 && n2) 0 0 else round (decide (s < 0)) s.natAbs e0

/-- Go `x <= y` on float64. -/
def le : Float64 → Float64 → Bool
  | .nan, _ => false
  | _, .nan => false
  | .inf a, .inf b => a || !b
  | .inf a, .fin _ _ _ => a
  | .fin _ _ _, .inf b => !b
  | .fin n1 m1 e1, .fin n2 m2 e2 =>
    let e0 := min e1 e2
    decide (signed n1 (m1 * 2 ^ (e1 - e0).toNat) ≤ signed n2 (m2 * 2 ^ (e2 - e0).toNat))

/-- Go `x < y` on float64. -/
def lt : Float64 → Float64 → Bool
  | .nan, _ => false
  | _, .nan => false
  | .inf a, .inf b => a && !b
  | .inf a, .fin _ _ _ => a
  | .fin _ _ _, .inf b => !b
  | .fin n1 m1 e1, .fin n2 m2 e2 =>
    let e0 := min e1 e2
    decide (signed n1 (m1 * 2 ^ (e1 - e0).toNat) < signed n2 (m2 * 2 ^ (e2 - e0).toNat))

/-- Go `x > y` on float64. -/
def gt (x y : Float64) : Bool := lt y x

/-- Go `x == y` on float64: false when either is NaN, true for `0.0 == -0.0`. -/
def eq (x y : Float64) : Bool := le x y && le y x

/-- Go `x * y` on float64. -/
def mul : Float64 → Float64 → Float64
  | .nan, _ => .nan
  | _, .nan => .nan
  | .inf a, .inf b => .inf (a != b)
  | .inf a, .fin n m _ => if m = 0 then .nan else .inf (a != n)
  | .fin n m _, .inf b => if m = 0 then .nan else .inf (n != b)
  | .fin n1 m1 e1, .fin n2 m2 e2 => round (n1 != n2) (m1 * m2) (e1 + e2)

/-- The float64 of an integer (the conversion `float64(z)`; exact up to `2^53`). -/
def ofInt (z : Int) : Float64 := round (decide (z < 0)) z.natAbs 0

end Float64

/-! ## time.Time and the clock -/

/-- Go `time.Time`: an instant, in nanoseconds since the epoch (location and monotonic
reading are not part of the comparison of instants and are left out). -/
structure Time where
  unixNano : Int
deriving DecidableEq, Repr

/-- Go `t.Before(u)`: the instant `t` is strictly before `u`. -/
def Time.Before (t u : Time) : Bool := decide (t.unixNano < u.unixNano)

/-- Go `t.After(u)`: the instant `t` is strictly after `u`. -/
def Time.After (t u : Time) : Bool := decide (u.unixNano < t.unixNano)

/-- The system clock: `readings k` is what the `k`-th call of `time.Now()` returns, `pos` counts
the calls made so far. -/
structure Clock where
  readings : Nat → Time
  pos : Nat

/-- Go `time.Now()`: the current reading, and the clock after the call. -/
def Clock.Now (c : Clock) : Time × Clock := (c.readings c.pos, { c with pos := c.pos + 1 })

/-! ## Errors -/

/-- The error values of package `domain`: the sentinels declared with `errors.New` at package
level, and `New msg` for an error made by `errors.New(msg)` at the place it is returned. -/
inductive Error where
  | ErrInvalidOrderID
  | ErrInvalidUserID
  | ErrEmptyItems
  | ErrInvalidTotalPrice
  | ErrInvalidDeliveryTime
  | ErrInvalidAddressID
  | ErrInvalidFullName
  | ErrInvalidStreetAddress
  | ErrInvalidCity
  | ErrInvalidState
  | ErrInvalidPostalCode
  | ErrInvalidCountry
  | ErrInvalidPhone
  | New (msg : String)
deriving DecidableEq, Repr

/-! ## Data model -/

/-- Go `type OrderStatus string`. -/
abbrev OrderStatus := String

def OrderStatusCreated : OrderStatus := "CREATED"
def OrderStatusAwaitingPayment : OrderStatus := "AWAITING_PAYMENT"
def OrderStatusPaid : OrderStatus := "PAID"
def OrderStatusProcessing : OrderStatus := "PROCESSING"
def OrderStatusReadyForDelivery : OrderStatus := "READY_FOR_DELIVERY"
def OrderStatusOutForDelivery : OrderStatus := "OUT_FOR_DELIVERY"
def OrderStatusDelivered : OrderStatus := "DELIVERED"
def OrderStatusCancelled : OrderStatus := "CANCELLED"

/-- Go `type DeliveryAddress struct`. -/
structure DeliveryAddress where
  ID : String
  UserID : String
  FullName : String
  StreetAddress : String
  Apartment : String
  City : String
  State : String
  PostalCode : String
  Country : String
  Phone : String
  IsDefault : Bool
deriving DecidableEq, Repr

/-- Go `type OrderItem struct`; `Quantity` is an `int32`. -/
structure OrderItem where
  ProductID : String
  ProductName : String
  Quantity : Int
  UnitPrice : Float64
  TotalPrice : Float64
deriving DecidableEq, Repr

/-- Go `type Order struct`; `DeliveryAddress` is a pointer, `none` when nil. -/
structure Order where
  ID : String
  UserID : String
  Items : List OrderItem
  TotalPrice : Float64
  Currency : String
  Status : OrderStatus
  DeliveryAddress : Option DeliveryAddress
  DeliveryTime : Time
  CreatedAt : Time
  UpdatedAt : Time
deriving DecidableEq, Repr

deriving instance DecidableEq for Except

/-! ## The constructor -/

/-- The loop `for _, item := range items { totalPrice += item.TotalPrice }` of `NewOrder`,
started from the accumulator `acc`. -/
def sumItemTotals (acc : Float64) (items : List OrderItem) : Float64 :=
  items.foldl (fun totalPrice item => totalPrice.add item.TotalPrice) acc

/-- Go `NewOrder`. The clock is read once for the delivery-time check and once each for
`CreatedAt` and `UpdatedAt`, in this order; a call that fails earlier reads it less often. -/
def NewOrder (userID : String) (items : List OrderItem) (deliveryAddress : Option DeliveryAddress)
    (deliveryTime : Time) (clk : Clock) : Except Error Order × Clock :=
  if userID = "" then (.error .ErrInvalidUserID, clk)
  else if items.length = 0 then (.error .ErrEmptyItems, clk)
  else
    let totalPrice := sumItemTotals Float64.zero items
    if totalPrice.le Float64.zero then (.error .ErrInvalidTotalPrice, clk)
    else
      let n1 := clk.Now
      if deliveryTime.Before n1.1 then (.error .ErrInvalidDeliveryTime, n1.2)
      else
        let n2 := n1.2.Now
        let n3 := n2.2.Now
        (.ok
          { ID := ""
            UserID := userID
            Items := items
            TotalPrice := totalPrice
            Currency := "USD"
            Status := OrderStatusCreated
            DeliveryAddress := deliveryAddress
            DeliveryTime := deliveryTime
            CreatedAt := n2.1
            UpdatedAt := n3.1 }, n3.2)

/-! ## The mutators -/

/-- Go `(*Order).UpdateStatus`. -/
def Order.UpdateStatus (o : Order) (status : OrderStatus) (clk : Clock) : Order × Clock :=
  let n := clk.Now
  ({ o with Status := status, UpdatedAt := n.1 }, n.2)

/-- Go `(*Order).UpdateDeliveryTime`: the error returned, the order and the clock afterwards. -/
def Order.UpdateDeliveryTime (o : Order) (deliveryTime : Time) (clk : Clock) :
    Option Error × Order × Clock :=
  let n1 := clk.Now
  if deliveryTime.Before n1.1 then (some .ErrInvalidDeliveryTime, o, n1.2)
  else
    let n2 := n1.2.Now
    (none, { o with DeliveryTime := deliveryTime, UpdatedAt := n2.1 }, n2.2)

/-- Go `(*Order).UpdateDeliveryAddress`. -/
def Order.UpdateDeliveryAddress (o : Order) (address : Option OrderService.DeliveryAddress)
    (clk : Clock) :
    Order × Clock :=
  let n := clk.Now
  ({ o with DeliveryAddress := address, UpdatedAt := n.1 }, n.2)

/-- Go `(*Order).CanBePaid`. -/
def Order.CanBePaid (o : Order) : Bool :=
  o.Status == OrderStatusCreated || o.Status == OrderStatusAwaitingPayment

/-- Go `(*Order).CanBeCancelled`. -/
def Order.CanBeCancelled (o : Order) : Bool :=
  o.Status != OrderStatusDelivered && o.Status != OrderStatusCancelled

/-- Go `(*Order).MarkAsPaid`. -/
def Order.MarkAsPaid (o : Order) (clk : Clock) : Order × Clock :=
  if o.CanBePaid then
    let n := clk.Now
    ({ o with Status := OrderStatusPaid, UpdatedAt := n.1 }, n.2)
  else (o, clk)

/-- Go `(*Order).MarkAsAwaitingPayment`. -/
def Order.MarkAsAwaitingPayment (o : Order) (clk : Clock) : Order × Clock :=
  if o.Status == OrderStatusCreated then
    let n := clk.Now
    ({ o with Status := OrderStatusAwaitingPayment, UpdatedAt := n.1 }, n.2)
  else (o, clk)

/-- Go `(*Order).Cancel`: the error returned, the order and the clock afterwards. -/
def Order.Cancel (o : Order) (clk : Clock) : Option Error × Order × Clock :=
  if !o.CanBeCancelled then
    (some (.New "order cannot be cancelled in current status"), o, clk)
  else
    let n := clk.Now
    (none, { o with Status := OrderStatusCancelled, UpdatedAt := n.1 }, n.2)

/-! ## Strings -/

/-- Go `len(s)` on a string: the number of bytes of its UTF-8 encoding. -/
def len (s : String) : Nat := s.utf8ByteSize

/-- The code point of `c` lies between those of `lo` and `hi`, both included. -/
def charBetween (lo hi c : Char) : Bool := decide (lo.toNat ≤ c.toNat ∧ c.toNat ≤ hi.toNat)

/-- Go `unicode.IsSpace`: the white space of Unicode. -/
def isSpace (c : Char) : Bool :=
  (9 ≤ c.toNat && c.toNat ≤ 13) || c.toNat == 0x20 || c.toNat == 0x85 || c.toNat == 0xA0 ||
    c.toNat == 0x1680 || (0x2000 ≤ c.toNat && c.toNat ≤ 0x200A) || c.toNat == 0x2028 ||
    c.toNat == 0x2029 || c.toNat == 0x202F || c.toNat == 0x205F || c.toNat == 0x3000

/-- Go `strings.TrimSpace`: the string without its leading and trailing white space. -/
def TrimSpace (s : String) : String :=
  ⟨(s.data.dropWhile isSpace).rdropWhile isSpace⟩

/-- Go `strings.Join(parts, sep)`. -/
def Join (parts : List String) (sep : String) : String := sep.intercalate parts

/-! ## Regular expressions -/

/-- The regular expressions that the patterns of `delivery_address.go` are made of: a character
class given by its ranges, concatenation, `r?` and `r{min,max}`. -/
inductive Regex where
  | cls (ranges : List (Char × Char))
  | seq (r q : Regex)
  | opt (r : Regex)
  | rep (r : Regex) (min max : Nat)

/-- The character `c` belongs to the class with these ranges. -/
def inClass (ranges : List (Char × Char)) (c : Char) : Bool :=
  ranges.any (fun p => charBetween p.1 p.2 c)

/-- The rests of `s` after between `lo` and `hi` successive matches of `step`. -/
def repeatFrom (step : List Char → List (List Char)) : Nat → Nat → List Char → List (List Char)
  | lo, 0, s => if lo = 0 then [s] else []
  | lo, hi + 1, s =>
    (if lo = 0 then [s] else []) ++ (step s).flatMap (repeatFrom step (lo - 1) hi)

/-- The rests of `s` after each prefix of `s` that `r` matches. -/
def Regex.after : Regex → List Char → List (List Char)
  | .cls ranges => fun s =>
    match s with
    | [] => []
    | c :: t => if inClass ranges c then [t] else []
  | .seq r q => fun s => (r.after s).flatMap q.after
  | .opt r => fun s => r.after s ++ [s]
  | .rep r lo hi => fun s => repeatFrom r.after lo hi s

/-- Go `re.MatchString(s)` for the pattern `^r$`: the whole of `s` matches `r`. -/
def Regex.MatchString (r : Regex) (s : String) : Bool := (r.after s.data).contains []

/-- The class `\s` of Go regular expressions: `[\t\n\f\r ]`. -/
def perlSpace : List (Char × Char) :=
  [(Char.ofNat 9, Char.ofNat 10), (Char.ofNat 12, Char.ofNat 13), (' ', ' ')]

/-- Go `phoneRegex`, the pattern `^\+?[1-9]\d{1,14}$`. -/
def phoneRegex : Regex :=
  .seq (.opt (.cls [('+', '+')])) (.seq (.cls [('1', '9')]) (.rep (.cls [('0', '9')]) 1 14))

/-- Go `postalRegex`, the pattern `^[0-9A-Z]{3,10}$`. -/
def postalRegex : Regex := .rep (.cls [('0', '9'), ('A', 'Z')]) 3 10

/-- Go `nameRegex`, the pattern `^[a-zA-Z\s\-']{2,100}$`. -/
def nameRegex : Regex :=
  .rep (.cls ([('a', 'z'), ('A', 'Z')] ++ perlSpace ++
    [('-', '-'), (Char.ofNat 39, Char.ofNat 39)])) 2 100

/-! ## The delivery address -/

/-- Go `(*DeliveryAddress).Validate`. -/
def DeliveryAddress.Validate (a : DeliveryAddress) : Option Error :=
  if a.UserID = "" then some .ErrInvalidUserID
  else if !nameRegex.MatchString a.FullName then some .ErrInvalidFullName
  else if len a.StreetAddress < 5 then some .ErrInvalidStreetAddress
  else if len a.City < 2 then some .ErrInvalidCity
  else if len a.State < 2 then some .ErrInvalidState
  else if !postalRegex.MatchString a.PostalCode then some .ErrInvalidPostalCode
  else if len a.Country < 2 then some .ErrInvalidCountry
  else if !phoneRegex.MatchString a.Phone then some .ErrInvalidPhone
  else none

/-- Go `NewDeliveryAddress`. -/
def NewDeliveryAddress (userID fullName streetAddress apartment city state postalCode country
    phone : String) (isDefault : Bool) : Except Error DeliveryAddress :=
  let address : DeliveryAddress :=
    { ID := ""
      UserID := userID
      FullName := TrimSpace fullName
      StreetAddress := TrimSpace streetAddress
      Apartment := TrimSpace apartment
      City := TrimSpace city
      State := TrimSpace state
      PostalCode := TrimSpace postalCode
      Country := TrimSpace country
      Phone := TrimSpace phone
      IsDefault := isDefault }
  match address.Validate with
  | some err => .error err
  | none => .ok address

/-- Go `(*DeliveryAddress).Update`: the error returned and the address afterwards. The fields
are assigned before the validation, also when it fails. -/
def DeliveryAddress.Update (a : DeliveryAddress) (fullName streetAddress apartment city state
    postalCode country phone : String) : Option Error × DeliveryAddress :=
  let a1 : DeliveryAddress :=
    { a with
      FullName := TrimSpace fullName
      StreetAddress := TrimSpace streetAddress
      Apartment := TrimSpace apartment
      City := TrimSpace city
      State := TrimSpace state
      PostalCode := TrimSpace postalCode
      Country := TrimSpace country
      Phone := TrimSpace phone }
  (a1.Validate, a1)

/-- Go `(*DeliveryAddress).SetDefault`. -/
def DeliveryAddress.SetDefault (a : DeliveryAddress) (isDefault : Bool) : DeliveryAddress :=
  { a with IsDefault := isDefault }

/-- Go `(*DeliveryAddress).FormatFull`. -/
def DeliveryAddress.FormatFull (a : DeliveryAddress) : String :=
  let parts := [a.StreetAddress]
  let parts := if a.Apartment ≠ "" then parts ++ [a.Apartment] else parts
  let parts := parts ++ [a.City, a.State, a.PostalCode, a.Country]
  Join parts ", "

/-- The address that `NewDeliveryAddress` builds from its arguments before it validates it:
every free-text argument trimmed, the user id and the default flag as given, no id. -/
def trimmedAddress (userID fullName streetAddress apartment city state postalCode country
    phone : String) (isDefault : Bool) : DeliveryAddress :=
  { ID := ""
    UserID := userID
    FullName := TrimSpace fullName
    StreetAddress := TrimSpace streetAddress
    Apartment := TrimSpace apartment
    City := TrimSpace city
    State := TrimSpace state
    PostalCode := TrimSpace postalCode
    Country := TrimSpace country
    Phone := TrimSpace phone
    IsDefault := isDefault }

/-! ## The gRPC handler -/

/-- The status codes of `google.golang.org/grpc/codes`. -/
inductive Code where
  | OK
  | Canceled
  | Unknown
  | InvalidArgument
  | DeadlineExceeded
  | NotFound
  | AlreadyExists
  | PermissionDenied
  | ResourceExhausted
  | FailedPrecondition
  | Aborted
  | OutOfRange
  | Unimplemented
  | Internal
  | Unavailable
  | DataLoss
  | Unauthenticated
deriving DecidableEq, Repr

/-- An `error` returned by a handler: an error value of package `domain`, or the error that
`status.Error(code, msg)` makes. -/
inductive HandlerError where
  | domain (err : Error)
  | status (code : Code) (msg : String)
deriving DecidableEq, Repr

/-- Modelled from the spec: the request type `pb.CreateOrderRequest` is generated code that is
not among the sources; its fields are the arguments the specification gives to `CreateOrder`,
which are the arguments of `NewOrder`. -/
structure CreateOrderRequest where
  UserID : String
  Items : List OrderItem
  DeliveryAddress : Option DeliveryAddress
  DeliveryTime : Time
deriving DecidableEq, Repr

/-- Go `(*OrderHandler).CreateOrder`: the body is
`return nil, status.Error(codes.Unimplemented, "method CreateOrder not implemented")`, under the
comment `TODO: Implement order creation logic`. The result type `*pb.Order` is generated code
that is not among the sources; the order of package `domain` stands for it. -/
def OrderHandler.CreateOrder (_req : CreateOrderRequest) : Except HandlerError Order :=
  .error (.status .Unimplemented "method CreateOrder not implemented")

/-! ## Sample inputs -/

/-- A clock whose `k`-th reading is the instant `1000 + k`. -/
def sampleClock : Clock := ⟨fun k => ⟨1000 + (k : Int)⟩, 0⟩

/-- An order line of two pens at 5 each, line total 10. -/
def samplePens : OrderItem := ⟨"p-1", "Pen", 2, Float64.ofInt 5, Float64.ofInt 10⟩

/-- An order line of one book at 7, line total 7. -/
def sampleBook : OrderItem := ⟨"p-2", "Book", 1, Float64.ofInt 7, Float64.ofInt 7⟩

/-- An order in status `status`, created at instant 10. -/
def sampleOrder (status : OrderStatus) : Order :=
  { ID := "o-1", UserID := "u-1", Items := [samplePens, sampleBook],
    TotalPrice := Float64.ofInt 17, Currency := "USD", Status := status,
    DeliveryAddress := none, DeliveryTime := ⟨5000⟩, CreatedAt := ⟨10⟩, UpdatedAt := ⟨10⟩ }

/-- The order `NewOrder "u-1" [samplePens, sampleBook] none ⟨2000⟩ sampleClock` returns. -/
def sampleCreated : Order :=
  { ID := "", UserID := "u-1", Items := [samplePens, sampleBook],
    TotalPrice := Float64.ofInt 17, Currency := "USD", Status := "CREATED",
    DeliveryAddress := none, DeliveryTime := ⟨2000⟩, CreatedAt := ⟨1001⟩, UpdatedAt := ⟨1002⟩ }

/-- An order line whose `TotalPrice` is NaN. -/
def sampleNaNLine : OrderItem := ⟨"p-3", "Ink", 1, Float64.ofInt 4, .nan⟩

/-- An order line with quantity 0 and line total 10. -/
def sampleZeroQuantity : OrderItem := ⟨"p-4", "Cap", 0, Float64.ofInt 5, Float64.ofInt 10⟩

/-- An order line of three at 5 each whose line total is 7. -/
def sampleWrongTotal : OrderItem := ⟨"p-5", "Mug", 3, Float64.ofInt 5, Float64.ofInt 7⟩

/-- The address of the example of the specification. -/
def sampleAddress : DeliveryAddress :=
  { ID := "", UserID := "u-1", FullName := "John Doe", StreetAddress := "123 Main Street",
    Apartment := "", City := "Springfield", State := "IL", PostalCode := "62704",
    Country := "USA", Phone := "+12025550123", IsDefault := false }

/-- The name `Al Bo` with a tab in the place of the space. -/
def sampleTabName : String := ⟨['A', 'l', Char.ofNat 9, 'B', 'o']⟩

/-! ## Predicates of the specification -/

/-- The order invariant of the specification: `TotalPrice` is the sum of the items'
`TotalPrice`, `TotalPrice > 0`, and there is at least one item. -/
def Order.Invariant (o : Order) : Prop :=
  o.TotalPrice = (o.Items.map OrderItem.TotalPrice).foldl Float64.add Float64.zero ∧
    Float64.gt o.TotalPrice Float64.zero = true ∧ 1 ≤ o.Items.length

instance (o : Order) : Decidable o.Invariant := by
  unfold Order.Invariant
  infer_instance

/-- The line rule of the specification, which the source does not implement: the quantity is
positive and the line total is `float64(Quantity) * UnitPrice`. -/
def OrderItem.lineValid (item : OrderItem) : Bool :=
  decide (0 < item.Quantity) &&
    Float64.eq item.TotalPrice (Float64.mul (Float64.ofInt item.Quantity) item.UnitPrice)

/-! ## The validation rule in words -/

/-- An ASCII letter, `a` to `z` or `A` to `Z`. -/
def isLetter (c : Char) : Bool := charBetween 'a' 'z' c || charBetween 'A' 'Z' c

/-- An upper-case ASCII letter. -/
def isUpper (c : Char) : Bool := charBetween 'A' 'Z' c

/-- An ASCII digit. -/
def isDigit (c : Char) : Bool := charBetween '0' '9' c

/-- The space character U+0020. -/
def isBlank (c : Char) : Bool := c == ' '

/-- A tab, line feed, form feed, carriage return or space. -/
def isPerlSpace (c : Char) : Bool :=
  c == Char.ofNat 9 || c == Char.ofNat 10 || c == Char.ofNat 12 || c == Char.ofNat 13 || c == ' '

/-- The string without its leading `+`, if it has one. -/
def phoneDigits : List Char → List Char
  | [] => []
  | c :: t => if c = '+' then t else c :: t

/-- The rule for the phone: an optional leading `+` followed by 2 to 15 digits whose first
digit is not zero. -/
def phoneRule (s : String) : Bool :=
  decide (2 ≤ (phoneDigits s.data).length) && decide ((phoneDigits s.data).length ≤ 15) &&
    (phoneDigits s.data).all isDigit && ((phoneDigits s.data).head? != some '0')

/-- The rule for the full name: 2 to 100 characters, each a letter, a `space`, a hyphen or an
apostrophe. -/
def nameRule (space : Char → Bool) (s : String) : Bool :=
  decide (2 ≤ s.length) && decide (s.length ≤ 100) &&
    s.data.all (fun c => isLetter c || space c || c == '-' || c == Char.ofNat 39)

/-- The rule for the postal code: 3 to 10 characters, each a digit or an upper-case letter. -/
def postalRule (s : String) : Bool :=
  decide (3 ≤ s.length) && decide (s.length ≤ 10) && s.data.all (fun c => isDigit c || isUpper c)

/-- The validation rule of an address, with the lengths of street, city, state and country
measured by `size` and `space` the characters that count as a space in a name. -/
def addressRule (size : String → Nat) (space : Char → Bool) (a : DeliveryAddress) : Bool :=
  (a.UserID != "") && nameRule space a.FullName && decide (5 ≤ size a.StreetAddress) &&
    decide (2 ≤ size a.City) && decide (2 ≤ size a.State) && postalRule a.PostalCode &&
    decide (2 ≤ size a.Country) && phoneRule a.Phone

/-! ## Facts about float64 comparison -/

theorem Float64.le_eq_false_of_lt {x y : Float64} (h : Float64.lt x y = true) :
    Float64.le y x = false := by
  rcases x with _ | a | ⟨n1, m1, e1⟩ <;> rcases y with _ | b | ⟨n2, m2, e2⟩ <;>
    simp only [Float64.lt, Float64.le] at h ⊢ <;> try (simp at h; done)
  · cases a <;> cases b <;> simp_all
  · simp_all
  · simp_all
  · rw [min_comm] at h
    simpa using h

theorem Float64.le_nan_left (y : Float64) : Float64.le .nan y = false := by
  cases y <;> rfl

theorem Float64.lt_nan_right (x : Float64) : Float64.lt x .nan = false := by
  cases x <;> rfl

theorem Float64.lt_of_le_eq_false {x y : Float64} (hx : x ≠ .nan) (hy : y ≠ .nan)
    (h : Float64.le x y = false) : Float64.lt y x = true := by
  rcases x with _ | a | ⟨n1, m1, e1⟩ <;> rcases y with _ | b | ⟨n2, m2, e2⟩ <;>
    simp only [Float64.lt, Float64.le] at h ⊢ <;> try (simp at hx; done)
  all_goals try (simp at hy; done)
  · cases a <;> cases b <;> simp_all
  · simp_all
  · simp_all
  · rw [min_comm] at h
    simpa using h

/-! ## Facts about the constructor -/

theorem sumItemTotals_eq_foldl_map (acc : Float64) (items : List OrderItem) :
    sumItemTotals acc items = (items.map OrderItem.TotalPrice).foldl Float64.add acc := by
  simp [sumItemTotals, List.foldl_map]

/-- The order `NewOrder` builds once all four checks have passed. -/
theorem NewOrder_of_checks_passed (userID : String) (items : List OrderItem)
    (addr : Option DeliveryAddress) (t : Time) (clk : Clock)
    (hu : userID ≠ "") (hi : items ≠ [])
    (hp : (sumItemTotals Float64.zero items).le Float64.zero = false)
    (ht : t.Before clk.Now.1 = false) :
    (NewOrder userID items addr t clk).1 = .ok
      { ID := "", UserID := userID, Items := items,
        TotalPrice := sumItemTotals Float64.zero items, Currency := "USD",
        Status := OrderStatusCreated, DeliveryAddress := addr, DeliveryTime := t,
        CreatedAt := clk.Now.2.Now.1, UpdatedAt := clk.Now.2.Now.2.Now.1 } := by
  have hl : items.length ≠ 0 := by simpa using hi
  simp [NewOrder, hu, hl, hp, ht]

/-- A successful `NewOrder` passed all four checks and returns the order built from the
arguments. -/
theorem NewOrder_ok_inv (userID : String) (items : List OrderItem)
    (addr : Option DeliveryAddress) (t : Time) (clk : Clock) (o : Order)
    (h : (NewOrder userID items addr t clk).1 = .ok o) :
    userID ≠ "" ∧ items ≠ [] ∧ (sumItemTotals Float64.zero items).le Float64.zero = false ∧
      t.Before clk.Now.1 = false ∧
      o = { ID := "", UserID := userID, Items := items,
            TotalPrice := sumItemTotals Float64.zero items, Currency := "USD",
            Status := OrderStatusCreated, DeliveryAddress := addr, DeliveryTime := t,
            CreatedAt := clk.Now.2.Now.1, UpdatedAt := clk.Now.2.Now.2.Now.1 } := by
  by_cases h1 : userID = ""
  · simp [NewOrder, h1] at h
  by_cases h2 : items.length = 0
  · simp [NewOrder, h1, h2] at h
  by_cases h3 : (sumItemTotals Float64.zero items).le Float64.zero = true
  · simp [NewOrder, h1, h2, h3] at h
  by_cases h4 : t.Before clk.Now.1 = true
  · simp [NewOrder, h1, h2, h3, h4] at h
  simp only [Bool.not_eq_true] at h3 h4
  simp [NewOrder, h1, h2, h3, h4] at h
  refine ⟨h1, ?_, h3, h4, h.symm⟩
  intro hnil
  exact h2 (by simp [hnil])

/-- The outcome of `NewOrder` when the delivery time is before the reading of the clock. -/
theorem NewOrder_of_past_delivery_time (userID : String) (items : List OrderItem)
    (addr : Option DeliveryAddress) (t : Time) (clk : Clock)
    (ht : t.Before clk.Now.1 = true) :
    (NewOrder userID items addr t clk).1 = .error
      (if userID = "" then .ErrInvalidUserID
       else if items = [] then .ErrEmptyItems
       else if (sumItemTotals Float64.zero items).le Float64.zero = true then .ErrInvalidTotalPrice
       else .ErrInvalidDeliveryTime) := by
  by_cases h1 : userID = ""
  · simp [NewOrder, h1]
  by_cases h2 : items = []
  · simp [NewOrder, h1, h2]
  have hl : items.length ≠ 0 := by simpa using h2
  by_cases h3 : (sumItemTotals Float64.zero items).le Float64.zero = true
  · simp [NewOrder, h1, h2, h3]
  · simp [NewOrder, h1, h2, h3, ht]

/-! ## C1: total price and items of a new order -/

/-- C1: when `NewOrder` succeeds on a non-empty user id and a non-empty item sequence, the
returned order's `TotalPrice` is the sum, taken from `0.0` in sequence order, of the items'
`TotalPrice` fields, and its `Items` are the supplied items in the same order. -/
theorem NewOrder_total_is_sum_and_items_kept (userID : String) (items : List OrderItem)
    (addr : Option DeliveryAddress) (t : Time) (clk : Clock) (o : Order)
    (hu : userID ≠ "") (hi : items ≠ [])
    (h : (NewOrder userID items addr t clk).1 = .ok o) :
    o.TotalPrice = (items.map OrderItem.TotalPrice).foldl Float64.add Float64.zero ∧
      o.Items = items := by
  have _ := hu
  have _ := hi
  obtain ⟨-, -, -, -, rfl⟩ := NewOrder_ok_inv userID items addr t clk o h
  exact ⟨sumItemTotals_eq_foldl_map _ _, rfl⟩

theorem NewOrder_total_is_sum_and_items_kept_witness :
    ("u-1" : String) ≠ "" ∧ [samplePens, sampleBook] ≠ [] ∧
      (NewOrder "u-1" [samplePens, sampleBook] none ⟨2000⟩ sampleClock).1 = .ok sampleCreated ∧
      sampleCreated.TotalPrice = Float64.add (Float64.add Float64.zero (Float64.ofInt 10))
        (Float64.ofInt 7) ∧
      (sampleCreated.TotalPrice =
          ([samplePens, sampleBook].map OrderItem.TotalPrice).foldl Float64.add Float64.zero ∧
        sampleCreated.Items = [samplePens, sampleBook]) :=
  ⟨by decide, by decide, by decide, by decide,
    NewOrder_total_is_sum_and_items_kept "u-1" [samplePens, sampleBook] none ⟨2000⟩ sampleClock
      sampleCreated (by decide) (by decide) (by decide)⟩

/-! ## C2: the outcome of `NewOrder` -/

/-- C2: `NewOrder` fails with `ErrInvalidUserID` on an empty user id; with `ErrEmptyItems` on a
non-empty user id and no items; with `ErrInvalidTotalPrice` when user id and items are non-empty
and the summed item totals are `<= 0`; and when user id and items are non-empty, the sum is `> 0`
and the delivery time is strictly after the current time, it returns an order with status
`CREATED` and an empty `ID`. -/
theorem NewOrder_outcome (userID : String) (items : List OrderItem)
    (addr : Option DeliveryAddress) (t : Time) (clk : Clock) :
    (userID = "" → (NewOrder userID items addr t clk).1 = .error .ErrInvalidUserID) ∧
    (userID ≠ "" → items = [] →
      (NewOrder userID items addr t clk).1 = .error .ErrEmptyItems) ∧
    (userID ≠ "" → items ≠ [] →
      Float64.le ((items.map OrderItem.TotalPrice).foldl Float64.add Float64.zero)
        Float64.zero = true →
      (NewOrder userID items addr t clk).1 = .error .ErrInvalidTotalPrice) ∧
    (userID ≠ "" → items ≠ [] →
      Float64.gt ((items.map OrderItem.TotalPrice).foldl Float64.add Float64.zero)
        Float64.zero = true →
      t.After clk.Now.1 = true →
      ∃ o, (NewOrder userID items addr t clk).1 = .ok o ∧
        o.Status = OrderStatusCreated ∧ o.ID = "") := by
  refine ⟨?_, ?_, ?_, ?_⟩
  · intro h1
    simp [NewOrder, h1]
  · intro h1 h2
    simp [NewOrder, h1, h2]
  · intro h1 h2 h3
    have hl : items.length ≠ 0 := by simpa using h2
    rw [← sumItemTotals_eq_foldl_map] at h3
    simp [NewOrder, h1, hl, h3]
  · intro h1 h2 h3 h4
    rw [← sumItemTotals_eq_foldl_map] at h3
    have hp := Float64.le_eq_false_of_lt h3
    have ht : t.Before clk.Now.1 = false := by
      simp only [Time.After, decide_eq_true_eq] at h4
      simp only [Time.Before, decide_eq_false_iff_not, not_lt]
      exact le_of_lt h4
    exact ⟨_, NewOrder_of_checks_passed userID items addr t clk h1 h2 hp ht, rfl, rfl⟩

theorem NewOrder_outcome_witness :
    (NewOrder "" [samplePens] none ⟨2000⟩ sampleClock).1 = .error .ErrInvalidUserID ∧
    (NewOrder "u-1" [] none ⟨2000⟩ sampleClock).1 = .error .ErrEmptyItems ∧
    (NewOrder "u-1" [{ samplePens with TotalPrice := Float64.ofInt (-10) }, sampleBook] none
      ⟨2000⟩ sampleClock).1 = .error .ErrInvalidTotalPrice ∧
    ∃ o, (NewOrder "u-1" [samplePens, sampleBook] none ⟨2000⟩ sampleClock).1 = .ok o ∧
      o.Status = OrderStatusCreated ∧ o.ID = "" :=
  ⟨(NewOrder_outcome "" [samplePens] none ⟨2000⟩ sampleClock).1 rfl,
   (NewOrder_outcome "u-1" [] none ⟨2000⟩ sampleClock).2.1 (by decide) rfl,
   (NewOrder_outcome "u-1" [{ samplePens with TotalPrice := Float64.ofInt (-10) }, sampleBook]
      none ⟨2000⟩ sampleClock).2.2.1 (by decide) (by decide) (by decide),
   (NewOrder_outcome "u-1" [samplePens, sampleBook] none ⟨2000⟩ sampleClock).2.2.2
      (by decide) (by decide) (by decide) (by decide)⟩

/-! ## C3: a delivery time in the past -/

/-- C3, refuted as stated: with an empty user id and a delivery time (instant 0) before the
clock reading (instant 1000), `NewOrder` fails with `ErrInvalidUserID`, not with
`ErrInvalidDeliveryTime`. -/
theorem NewOrder_past_delivery_time_counterexample :
    (⟨0⟩ : Time).Before sampleClock.Now.1 = true ∧
      (NewOrder "" [samplePens] none ⟨0⟩ sampleClock).1 = .error .ErrInvalidUserID ∧
      (NewOrder "" [samplePens] none ⟨0⟩ sampleClock).1 ≠ .error .ErrInvalidDeliveryTime := by
  decide

/-- C3, amended: a call of `NewOrder` whose delivery time is before the current time always
fails, and it fails with `ErrInvalidDeliveryTime` exactly when the three earlier checks pass:
the user id is non-empty, the item sequence is non-empty and the summed total is not `<= 0`.
Otherwise the error is that of the first earlier check that fails. -/
theorem NewOrder_past_delivery_time_fails (userID : String) (items : List OrderItem)
    (addr : Option DeliveryAddress) (t : Time) (clk : Clock)
    (ht : t.Before clk.Now.1 = true) :
    (∃ e, (NewOrder userID items addr t clk).1 = .error e) ∧
    ((NewOrder userID items addr t clk).1 = .error .ErrInvalidDeliveryTime ↔
      userID ≠ "" ∧ items ≠ [] ∧
        Float64.le ((items.map OrderItem.TotalPrice).foldl Float64.add Float64.zero)
          Float64.zero = false) ∧
    (userID = "" → (NewOrder userID items addr t clk).1 = .error .ErrInvalidUserID) ∧
    (userID ≠ "" → items = [] →
      (NewOrder userID items addr t clk).1 = .error .ErrEmptyItems) ∧
    (userID ≠ "" → items ≠ [] →
      Float64.le ((items.map OrderItem.TotalPrice).foldl Float64.add Float64.zero)
        Float64.zero = true →
      (NewOrder userID items addr t clk).1 = .error .ErrInvalidTotalPrice) := by
  have key := NewOrder_of_past_delivery_time userID items addr t clk ht
  rw [← sumItemTotals_eq_foldl_map]
  refine ⟨⟨_, key⟩, ?_, ?_, ?_, ?_⟩
  · rw [key]
    by_cases h1 : userID = ""
    · simp [h1]
    by_cases h2 : items = []
    · simp [h1, h2]
    by_cases h3 : (sumItemTotals Float64.zero items).le Float64.zero = true
    · simp [h1, h2, h3]
    · simp [h1, h2, h3]
  · intro h1
    rw [key]; simp [h1]
  · intro h1 h2
    rw [key]; simp [h1, h2]
  · intro h1 h2 h3
    rw [key]; simp [h1, h2, h3]

theorem NewOrder_past_delivery_time_fails_witness :
    (⟨0⟩ : Time).Before sampleClock.Now.1 = true ∧
      (NewOrder "u-1" [samplePens, sampleBook] none ⟨0⟩ sampleClock).1 =
        .error .ErrInvalidDeliveryTime :=
  ⟨by decide,
   ((NewOrder_past_delivery_time_fails "u-1" [samplePens, sampleBook] none ⟨0⟩ sampleClock
      (by decide)).2.1).mpr ⟨by decide, by decide, by decide⟩⟩

/-! ## C4: cancelling -/

/-- C4: from a status that is neither `DELIVERED` nor `CANCELLED`, `Cancel` returns no error
and leaves the order with status `CANCELLED`; from `DELIVERED` or `CANCELLED` it returns an
error and leaves the whole order unchanged. -/
theorem Cancel_outcome (o : Order) (clk : Clock) :
    (o.Status ≠ OrderStatusDelivered → o.Status ≠ OrderStatusCancelled →
      (o.Cancel clk).1 = none ∧ (o.Cancel clk).2.1.Status = OrderStatusCancelled) ∧
    (o.Status = OrderStatusDelivered ∨ o.Status = OrderStatusCancelled →
      (∃ e, (o.Cancel clk).1 = some e) ∧ (o.Cancel clk).2.1 = o) := by
  constructor
  · intro h1 h2
    simp [Order.Cancel, Order.CanBeCancelled, h1, h2]
  · intro h
    have hc : o.CanBeCancelled = false := by
      rcases h with h | h <;> simp [Order.CanBeCancelled, h]
    simp [Order.Cancel, hc]

theorem Cancel_outcome_witness :
    ((sampleOrder OrderStatusPaid).Cancel sampleClock).1 = none ∧
    ((sampleOrder OrderStatusPaid).Cancel sampleClock).2.1.Status = OrderStatusCancelled ∧
    (∃ e, ((sampleOrder OrderStatusDelivered).Cancel sampleClock).1 = some e) ∧
    ((sampleOrder OrderStatusDelivered).Cancel sampleClock).2.1 = sampleOrder OrderStatusDelivered ∧
    (∃ e, ((sampleOrder OrderStatusCancelled).Cancel sampleClock).1 = some e) ∧
    ((sampleOrder OrderStatusCancelled).Cancel sampleClock).2.1 =
      sampleOrder OrderStatusCancelled :=
  ⟨((Cancel_outcome (sampleOrder OrderStatusPaid) sampleClock).1 (by decide) (by decide)).1,
   ((Cancel_outcome (sampleOrder OrderStatusPaid) sampleClock).1 (by decide) (by decide)).2,
   ((Cancel_outcome (sampleOrder OrderStatusDelivered) sampleClock).2 (Or.inl rfl)).1,
   ((Cancel_outcome (sampleOrder OrderStatusDelivered) sampleClock).2 (Or.inl rfl)).2,
   ((Cancel_outcome (sampleOrder OrderStatusCancelled) sampleClock).2 (Or.inr rfl)).1,
   ((Cancel_outcome (sampleOrder OrderStatusCancelled) sampleClock).2 (Or.inr rfl)).2⟩

/-! ## C5: marking as paid -/

/-- C5: `MarkAsPaid` sets the status to `PAID` when the status before the call is `CREATED` or
`AWAITING_PAYMENT`; from every other status it returns the order unchanged (and does not read
the clock); so the call changes the order if and only if the status before it is `CREATED` or
`AWAITING_PAYMENT`. -/
theorem MarkAsPaid_outcome (o : Order) (clk : Clock) :
    (o.Status = OrderStatusCreated ∨ o.Status = OrderStatusAwaitingPayment →
      (o.MarkAsPaid clk).1.Status = OrderStatusPaid) ∧
    (¬ (o.Status = OrderStatusCreated ∨ o.Status = OrderStatusAwaitingPayment) →
      o.MarkAsPaid clk = (o, clk)) ∧
    ((o.MarkAsPaid clk).1 ≠ o ↔
      o.Status = OrderStatusCreated ∨ o.Status = OrderStatusAwaitingPayment) := by
  by_cases h : o.Status = OrderStatusCreated ∨ o.Status = OrderStatusAwaitingPayment
  · have hc : o.CanBePaid = true := by
      rcases h with h | h <;> simp [Order.CanBePaid, h]
    have hs : (o.MarkAsPaid clk).1.Status = OrderStatusPaid := by
      simp [Order.MarkAsPaid, hc]
    refine ⟨fun _ => hs, fun hn => absurd h hn, ?_⟩
    simp only [h, iff_true]
    intro heq
    rw [heq] at hs
    rcases h with h | h <;> rw [h] at hs <;> revert hs <;> decide
  · have hc : o.CanBePaid = false := by
      simp only [not_or] at h
      simp [Order.CanBePaid, h.1, h.2]
    have hs : o.MarkAsPaid clk = (o, clk) := by
      simp [Order.MarkAsPaid, hc]
    refine ⟨fun hp => absurd hp h, fun _ => hs, ?_⟩
    simp [hs, h]

theorem MarkAsPaid_outcome_witness :
    ((sampleOrder OrderStatusCreated).MarkAsPaid sampleClock).1.Status = OrderStatusPaid ∧
    ((sampleOrder OrderStatusAwaitingPayment).MarkAsPaid sampleClock).1.Status =
      OrderStatusPaid ∧
    ((sampleOrder OrderStatusProcessing).MarkAsPaid sampleClock).1 =
      sampleOrder OrderStatusProcessing :=
  ⟨(MarkAsPaid_outcome (sampleOrder OrderStatusCreated) sampleClock).1 (Or.inl rfl),
   (MarkAsPaid_outcome (sampleOrder OrderStatusAwaitingPayment) sampleClock).1 (Or.inr rfl),
   congrArg Prod.fst
     ((MarkAsPaid_outcome (sampleOrder OrderStatusProcessing) sampleClock).2.1 (by decide))⟩

/-! ## C6: marking as awaiting payment -/

/-- C6: `MarkAsAwaitingPayment` sets the status to `AWAITING_PAYMENT` when the status before
the call is `CREATED`; from every other status it returns the order unchanged (and does not
read the clock); so the call changes the order if and only if the status before it is
`CREATED`. -/
theorem MarkAsAwaitingPayment_outcome (o : Order) (clk : Clock) :
    (o.Status = OrderStatusCreated →
      (o.MarkAsAwaitingPayment clk).1.Status = OrderStatusAwaitingPayment) ∧
    (o.Status ≠ OrderStatusCreated → o.MarkAsAwaitingPayment clk = (o, clk)) ∧
    ((o.MarkAsAwaitingPayment clk).1 ≠ o ↔ o.Status = OrderStatusCreated) := by
  by_cases h : o.Status = OrderStatusCreated
  · have hs : (o.MarkAsAwaitingPayment clk).1.Status = OrderStatusAwaitingPayment := by
      simp [Order.MarkAsAwaitingPayment, h]
    refine ⟨fun _ => hs, fun hn => absurd h hn, ?_⟩
    simp only [h, iff_true]
    intro heq
    rw [heq, h] at hs
    revert hs
    decide
  · have hs : o.MarkAsAwaitingPayment clk = (o, clk) := by
      simp [Order.MarkAsAwaitingPayment, h]
    refine ⟨fun hp => absurd hp h, fun _ => hs, ?_⟩
    simp [hs, h]

theorem MarkAsAwaitingPayment_outcome_witness :
    ((sampleOrder OrderStatusCreated).MarkAsAwaitingPayment sampleClock).1.Status =
      OrderStatusAwaitingPayment ∧
    ((sampleOrder OrderStatusPaid).MarkAsAwaitingPayment sampleClock).1 =
      sampleOrder OrderStatusPaid :=
  ⟨(MarkAsAwaitingPayment_outcome (sampleOrder OrderStatusCreated) sampleClock).1 rfl,
   congrArg Prod.fst
     ((MarkAsAwaitingPayment_outcome (sampleOrder OrderStatusPaid) sampleClock).2.1
       (by decide))⟩

/-! ## C7: changing the delivery time -/

/-- C7, refuted as stated: a delivery time equal to the clock reading (instant 1000) is not
strictly after it, yet `UpdateDeliveryTime` returns no error and stores it. -/
theorem UpdateDeliveryTime_at_now_counterexample :
    (⟨1000⟩ : Time).After sampleClock.Now.1 = false ∧
      ((sampleOrder OrderStatusCreated).UpdateDeliveryTime ⟨1000⟩ sampleClock).1 = none ∧
      ((sampleOrder OrderStatusCreated).UpdateDeliveryTime ⟨1000⟩ sampleClock).2.1.DeliveryTime
        = ⟨1000⟩ ∧
      (sampleOrder OrderStatusCreated).DeliveryTime ≠ ⟨1000⟩ := by
  decide

/-- C7, amended: `UpdateDeliveryTime(t)` fails with `ErrInvalidDeliveryTime` exactly when `t`
is strictly before the current time, and then leaves the order unchanged; when `t` is equal to
or after the current time (in particular when it is strictly after it) the call returns no
error and sets `DeliveryTime` to `t`. -/
theorem UpdateDeliveryTime_outcome (o : Order) (t : Time) (clk : Clock) :
    (t.Before clk.Now.1 = true →
      (o.UpdateDeliveryTime t clk).1 = some .ErrInvalidDeliveryTime ∧
        (o.UpdateDeliveryTime t clk).2.1 = o) ∧
    (t.Before clk.Now.1 = false →
      (o.UpdateDeliveryTime t clk).1 = none ∧
        (o.UpdateDeliveryTime t clk).2.1.DeliveryTime = t) ∧
    (t.After clk.Now.1 = true →
      (o.UpdateDeliveryTime t clk).1 = none ∧
        (o.UpdateDeliveryTime t clk).2.1.DeliveryTime = t) := by
  have hnb : t.Before clk.Now.1 = false →
      (o.UpdateDeliveryTime t clk).1 = none ∧
        (o.UpdateDeliveryTime t clk).2.1.DeliveryTime = t := by
    intro h
    simp [Order.UpdateDeliveryTime, h]
  refine ⟨?_, hnb, ?_⟩
  · intro h
    simp [Order.UpdateDeliveryTime, h]
  · intro h
    apply hnb
    simp only [Time.After, decide_eq_true_eq] at h
    simp only [Time.Before, decide_eq_false_iff_not, not_lt]
    exact le_of_lt h

theorem UpdateDeliveryTime_outcome_witness :
    (((sampleOrder OrderStatusPaid).UpdateDeliveryTime ⟨999⟩ sampleClock).1 =
        some .ErrInvalidDeliveryTime ∧
      ((sampleOrder OrderStatusPaid).UpdateDeliveryTime ⟨999⟩ sampleClock).2.1 =
        sampleOrder OrderStatusPaid) ∧
    (((sampleOrder OrderStatusPaid).UpdateDeliveryTime ⟨1000⟩ sampleClock).1 = none ∧
      ((sampleOrder OrderStatusPaid).UpdateDeliveryTime ⟨1000⟩ sampleClock).2.1.DeliveryTime =
        ⟨1000⟩) ∧
    (((sampleOrder OrderStatusPaid).UpdateDeliveryTime ⟨1001⟩ sampleClock).1 = none ∧
      ((sampleOrder OrderStatusPaid).UpdateDeliveryTime ⟨1001⟩ sampleClock).2.1.DeliveryTime =
        ⟨1001⟩) :=
  ⟨(UpdateDeliveryTime_outcome (sampleOrder OrderStatusPaid) ⟨999⟩ sampleClock).1 (by decide),
   (UpdateDeliveryTime_outcome (sampleOrder OrderStatusPaid) ⟨1000⟩ sampleClock).2.1
     (by decide),
   (UpdateDeliveryTime_outcome (sampleOrder OrderStatusPaid) ⟨1001⟩ sampleClock).2.2
     (by decide)⟩

/-! ## C8: terminal statuses -/

/-- C8, refuted as stated: `UpdateStatus` takes a `DELIVERED` order back to `CREATED` and a
`CANCELLED` order to `PAID`. -/
theorem UpdateStatus_leaves_terminal_counterexample :
    (sampleOrder OrderStatusDelivered).Status = OrderStatusDelivered ∧
      ((sampleOrder OrderStatusDelivered).UpdateStatus OrderStatusCreated sampleClock).1.Status =
        OrderStatusCreated ∧
      OrderStatusCreated ≠ OrderStatusDelivered ∧
      ((sampleOrder OrderStatusCancelled).UpdateStatus OrderStatusPaid sampleClock).1.Status =
        OrderStatusPaid ∧
      OrderStatusPaid ≠ OrderStatusCancelled := by
  decide

/-- C8, amended: for an order whose status is `DELIVERED` or `CANCELLED`, each of `MarkAsPaid`,
`MarkAsAwaitingPayment`, `Cancel`, `UpdateDeliveryTime` and `UpdateDeliveryAddress` leaves the
status as it was; `UpdateStatus` is not gated and sets the status to its argument, whatever
the status before. -/
theorem terminal_status_kept (o : Order) (clk : Clock) (t : Time)
    (address : Option DeliveryAddress) (status : OrderStatus)
    (h : o.Status = OrderStatusDelivered ∨ o.Status = OrderStatusCancelled) :
    (o.MarkAsPaid clk).1.Status = o.Status ∧
    (o.MarkAsAwaitingPayment clk).1.Status = o.Status ∧
    (o.Cancel clk).2.1.Status = o.Status ∧
    (o.UpdateDeliveryTime t clk).2.1.Status = o.Status ∧
    (o.UpdateDeliveryAddress address clk).1.Status = o.Status ∧
    (o.UpdateStatus status clk).1.Status = status := by
  have hpaid : o.CanBePaid = false := by
    rcases h with h | h <;> rw [Order.CanBePaid, h] <;> decide
  have hcreated : (o.Status == OrderStatusCreated) = false := by
    rcases h with h | h <;> rw [h] <;> decide
  have hcancel : o.CanBeCancelled = false := by
    rcases h with h | h <;> rw [Order.CanBeCancelled, h] <;> decide
  refine ⟨?_, ?_, ?_, ?_, ?_, ?_⟩
  · simp [Order.MarkAsPaid, hpaid]
  · simp [Order.MarkAsAwaitingPayment, hcreated]
  · simp [Order.Cancel, hcancel]
  · unfold Order.UpdateDeliveryTime
    by_cases hb : t.Before clk.Now.1 = true <;> simp [hb]
  · simp [Order.UpdateDeliveryAddress]
  · simp [Order.UpdateStatus]

theorem terminal_status_kept_witness :
    ((sampleOrder OrderStatusDelivered).MarkAsPaid sampleClock).1.Status =
        (sampleOrder OrderStatusDelivered).Status ∧
    ((sampleOrder OrderStatusDelivered).MarkAsAwaitingPayment sampleClock).1.Status =
        (sampleOrder OrderStatusDelivered).Status ∧
    ((sampleOrder OrderStatusDelivered).Cancel sampleClock).2.1.Status =
        (sampleOrder OrderStatusDelivered).Status ∧
    ((sampleOrder OrderStatusDelivered).UpdateDeliveryTime ⟨2000⟩ sampleClock).2.1.Status =
        (sampleOrder OrderStatusDelivered).Status ∧
    ((sampleOrder OrderStatusDelivered).UpdateDeliveryAddress none sampleClock).1.Status =
        (sampleOrder OrderStatusDelivered).Status ∧
    ((sampleOrder OrderStatusDelivered).UpdateStatus OrderStatusProcessing sampleClock).1.Status =
        OrderStatusProcessing :=
  terminal_status_kept (sampleOrder OrderStatusDelivered) sampleClock ⟨2000⟩ none
    OrderStatusProcessing (Or.inl rfl)

/-! ## C9: the order invariant -/

/-- C9, at the failing input: one item whose `TotalPrice` is NaN. The sum `0.0 + NaN` is NaN,
`NaN <= 0` is false, so the check of the total passes and `NewOrder` returns an order whose
`TotalPrice` is NaN: `TotalPrice > 0` is false and the invariant does not hold. -/
theorem NewOrder_nan_total_accepted :
    (NewOrder "u-1" [sampleNaNLine] none ⟨2000⟩ sampleClock).1 = .ok
        { ID := "", UserID := "u-1", Items := [sampleNaNLine], TotalPrice := .nan,
          Currency := "USD", Status := OrderStatusCreated, DeliveryAddress := none,
          DeliveryTime := ⟨2000⟩, CreatedAt := ⟨1001⟩, UpdatedAt := ⟨1002⟩ } ∧
      Float64.le .nan Float64.zero = false ∧
      Float64.gt .nan Float64.zero = false ∧
      ¬ Order.Invariant
        { ID := "", UserID := "u-1", Items := [sampleNaNLine], TotalPrice := .nan,
          Currency := "USD", Status := OrderStatusCreated, DeliveryAddress := none,
          DeliveryTime := ⟨2000⟩, CreatedAt := ⟨1001⟩, UpdatedAt := ⟨1002⟩ } := by
  decide

/-- The invariant holds for every order a successful `NewOrder` returns whose summed total is
not NaN. -/
theorem NewOrder_invariant_of_total_not_nan (userID : String) (items : List OrderItem)
    (addr : Option DeliveryAddress) (t : Time) (clk : Clock) (o : Order)
    (h : (NewOrder userID items addr t clk).1 = .ok o)
    (hnan : (items.map OrderItem.TotalPrice).foldl Float64.add Float64.zero ≠ .nan) :
    o.Invariant := by
  obtain ⟨-, hi, hp, -, rfl⟩ := NewOrder_ok_inv userID items addr t clk o h
  rw [← sumItemTotals_eq_foldl_map] at hnan
  refine ⟨sumItemTotals_eq_foldl_map _ _, ?_, ?_⟩
  · exact Float64.lt_of_le_eq_false hnan (by decide) hp
  · exact List.length_pos.mpr hi

/-- No mutator changes `Items`, `TotalPrice` or `CreatedAt`, whether it succeeds or fails. -/
theorem mutators_keep_items_total_createdAt (o : Order) (clk : Clock) (t : Time)
    (address : Option DeliveryAddress) (status : OrderStatus) :
    ∀ o1 ∈ [(o.UpdateStatus status clk).1, (o.UpdateDeliveryTime t clk).2.1,
        (o.UpdateDeliveryAddress address clk).1, (o.MarkAsPaid clk).1,
        (o.MarkAsAwaitingPayment clk).1, (o.Cancel clk).2.1],
      o1.Items = o.Items ∧ o1.TotalPrice = o.TotalPrice ∧ o1.CreatedAt = o.CreatedAt := by
  intro o1 ho1
  simp only [List.mem_cons, List.mem_singleton, List.not_mem_nil, or_false] at ho1
  rcases ho1 with rfl | rfl | rfl | rfl | rfl | rfl
  · simp [Order.UpdateStatus]
  · unfold Order.UpdateDeliveryTime
    by_cases hb : t.Before clk.Now.1 = true <;> simp [hb]
  · simp [Order.UpdateDeliveryAddress]
  · unfold Order.MarkAsPaid
    by_cases hc : o.CanBePaid = true <;> simp [hc]
  · unfold Order.MarkAsAwaitingPayment
    by_cases hc : (o.Status == OrderStatusCreated) = true <;> simp [hc]
  · unfold Order.Cancel
    by_cases hc : o.CanBeCancelled = true <;> simp [hc]

/-- Every mutator preserves the invariant, whether it succeeds or fails. -/
theorem mutators_preserve_invariant (o : Order) (clk : Clock) (t : Time)
    (address : Option DeliveryAddress) (status : OrderStatus) (h : o.Invariant) :
    ∀ o1 ∈ [(o.UpdateStatus status clk).1, (o.UpdateDeliveryTime t clk).2.1,
        (o.UpdateDeliveryAddress address clk).1, (o.MarkAsPaid clk).1,
        (o.MarkAsAwaitingPayment clk).1, (o.Cancel clk).2.1],
      o1.Invariant := by
  intro o1 ho1
  obtain ⟨h1, h2, -⟩ := mutators_keep_items_total_createdAt o clk t address status o1 ho1
  unfold Order.Invariant at h ⊢
  rw [h1, h2]
  exact h

/-! ## C10: item lines -/

/-- C10, refuted as stated: `NewOrder` returns an order for a sequence of two items of which
one has quantity 0 and the other a line total (7) different from quantity times unit price
(3 * 5 = 15). -/
theorem NewOrder_unvalidated_lines_counterexample :
    (NewOrder "u-1" [sampleZeroQuantity, sampleWrongTotal] none ⟨2000⟩ sampleClock).1 = .ok
        { ID := "", UserID := "u-1", Items := [sampleZeroQuantity, sampleWrongTotal],
          TotalPrice := Float64.ofInt 17, Currency := "USD", Status := OrderStatusCreated,
          DeliveryAddress := none, DeliveryTime := ⟨2000⟩, CreatedAt := ⟨1001⟩,
          UpdatedAt := ⟨1002⟩ } ∧
      ¬ (0 < sampleZeroQuantity.Quantity) ∧
      sampleZeroQuantity.lineValid = false ∧
      0 < sampleWrongTotal.Quantity ∧
      Float64.mul (Float64.ofInt sampleWrongTotal.Quantity) sampleWrongTotal.UnitPrice =
        Float64.ofInt 15 ∧
      sampleWrongTotal.TotalPrice = Float64.ofInt 7 ∧
      sampleWrongTotal.lineValid = false := by
  decide

/-- C10, amended: item lines are not validated at construction. `NewOrder` stores the items as
supplied and reads them only through their number and their `TotalPrice` fields: two item
sequences with the same `TotalPrice` fields in the same order give the same error, or orders
that differ only in `Items`. `Quantity` and `UnitPrice` are never examined. -/
theorem NewOrder_reads_only_line_totals (userID : String) (items items1 : List OrderItem)
    (addr : Option DeliveryAddress) (t : Time) (clk : Clock)
    (h : items.map OrderItem.TotalPrice = items1.map OrderItem.TotalPrice) :
    (∀ e, (NewOrder userID items addr t clk).1 = .error e ↔
      (NewOrder userID items1 addr t clk).1 = .error e) ∧
    (∀ o, (NewOrder userID items addr t clk).1 = .ok o →
      o.Items = items ∧
        (NewOrder userID items1 addr t clk).1 = .ok { o with Items := items1 }) := by
  have hsum : sumItemTotals Float64.zero items = sumItemTotals Float64.zero items1 := by
    rw [sumItemTotals_eq_foldl_map, sumItemTotals_eq_foldl_map, h]
  have hlen : items.length = items1.length := by
    have := congrArg List.length h
    simpa using this
  by_cases h1 : userID = ""
  · simp [NewOrder, h1]
  by_cases h2 : items.length = 0
  · have h2' : items1.length = 0 := hlen ▸ h2
    simp [NewOrder, h1, h2, h2']
  have h2' : items1.length ≠ 0 := hlen ▸ h2
  by_cases h3 : (sumItemTotals Float64.zero items).le Float64.zero = true
  · have h3' := hsum ▸ h3
    simp [NewOrder, h1, h2, h2', h3, h3']
  have h3' := hsum ▸ h3
  by_cases h4 : t.Before clk.Now.1 = true
  · simp [NewOrder, h1, h2, h2', h3, h3', h4]
  · simp only [Bool.not_eq_true] at h3 h3' h4
    constructor
    · intro e
      simp [NewOrder, h1, h2, h2', h3, h3', h4]
    · intro o ho
      simp [NewOrder, h1, h2, h2', h3, h3', h4] at ho ⊢
      subst ho
      simp [hsum]

theorem NewOrder_reads_only_line_totals_witness :
    [sampleZeroQuantity, sampleWrongTotal].map OrderItem.TotalPrice =
        [samplePens, sampleBook].map OrderItem.TotalPrice ∧
      (NewOrder "u-1" [sampleZeroQuantity, sampleWrongTotal] none ⟨2000⟩ sampleClock).1 =
        .ok { sampleCreated with Items := [sampleZeroQuantity, sampleWrongTotal] } :=
  ⟨by decide,
   ((NewOrder_reads_only_line_totals "u-1" [samplePens, sampleBook]
      [sampleZeroQuantity, sampleWrongTotal] none ⟨2000⟩ sampleClock (by decide)).2
      sampleCreated (by decide)).2⟩

/-! ## Facts about characters and regular expressions -/

theorem char_eq_iff_toNat_eq (c d : Char) : c = d ↔ c.toNat = d.toNat := by
  constructor
  · intro h
    rw [h]
  · intro h
    rw [← Char.ofNat_toNat c, ← Char.ofNat_toNat d, h]

theorem repeatFrom_cls_nil_mem (ranges : List (Char × Char)) (hi : Nat) :
    ∀ (lo : Nat) (s : List Char),
      [] ∈ repeatFrom (Regex.after (.cls ranges)) lo hi s ↔
        lo ≤ s.length ∧ s.length ≤ hi ∧ ∀ c ∈ s, inClass ranges c = true := by
  induction hi with
  | zero =>
    intro lo s
    cases s with
    | nil => by_cases h : lo = 0 <;> simp [repeatFrom, h]
    | cons c t => by_cases h : lo = 0 <;> simp [repeatFrom, h]
  | succ hi ih =>
    intro lo s
    cases s with
    | nil => by_cases h : lo = 0 <;> simp [repeatFrom, Regex.after, h]
    | cons c t =>
      have hstep : Regex.after (.cls ranges) (c :: t) = if inClass ranges c then [t] else [] := rfl
      by_cases hc : inClass ranges c = true
      · have := ih (lo - 1) t
        by_cases h : lo = 0
        · subst h
          simpa [repeatFrom, hstep, hc] using this
        · simp [repeatFrom, hstep, hc, h, this]
      · by_cases h : lo = 0 <;> simp [repeatFrom, hstep, hc, h]

theorem contains_nil_iff (l : List (List Char)) : l.contains [] = true ↔ [] ∈ l := by
  simp

theorem MatchString_rep_cls (ranges : List (Char × Char)) (lo hi : Nat) (s : String) :
    (Regex.rep (.cls ranges) lo hi).MatchString s = true ↔
      lo ≤ s.length ∧ s.length ≤ hi ∧ ∀ c ∈ s.data, inClass ranges c = true := by
  have h : (Regex.rep (.cls ranges) lo hi).after s.data =
      repeatFrom (Regex.after (.cls ranges)) lo hi s.data := rfl
  rw [Regex.MatchString, h, contains_nil_iff]
  exact repeatFrom_cls_nil_mem ranges hi lo s.data

theorem inClass_name (c : Char) :
    inClass ([('a', 'z'), ('A', 'Z')] ++ perlSpace ++ [('-', '-'), (Char.ofNat 39, Char.ofNat 39)])
        c = (isLetter c || isPerlSpace c || c == '-' || c == Char.ofNat 39) := by
  rw [Bool.eq_iff_iff]
  simp only [inClass, perlSpace, isLetter, isPerlSpace, charBetween, List.any_cons, List.any_nil,
    List.cons_append, List.nil_append, Bool.or_false, Bool.or_eq_true, decide_eq_true_eq,
    beq_iff_eq, char_eq_iff_toNat_eq]
  have h9 : (Char.ofNat 9).toNat = 9 := by decide
  have h10 : (Char.ofNat 10).toNat = 10 := by decide
  have h12 : (Char.ofNat 12).toNat = 12 := by decide
  have h13 : (Char.ofNat 13).toNat = 13 := by decide
  rw [h9, h10, h12, h13]
  omega

theorem inClass_postal (c : Char) :
    inClass [('0', '9'), ('A', 'Z')] c = (isDigit c || isUpper c) := by
  simp [inClass, isDigit, isUpper]

theorem MatchString_nameRegex (s : String) : nameRegex.MatchString s = nameRule isPerlSpace s := by
  rw [Bool.eq_iff_iff, nameRegex, MatchString_rep_cls]
  simp only [inClass_name]
  simp [nameRule, and_assoc]

theorem MatchString_postalRegex (s : String) : postalRegex.MatchString s = postalRule s := by
  rw [Bool.eq_iff_iff, postalRegex, MatchString_rep_cls]
  simp only [inClass_postal]
  simp [postalRule, and_assoc]

theorem inClass_plus (c : Char) : inClass [('+', '+')] c = true ↔ c = '+' := by
  simp only [inClass, charBetween, List.any_cons, List.any_nil, Bool.or_false, decide_eq_true_eq,
    char_eq_iff_toNat_eq]
  omega

theorem inClass_digit (c : Char) : inClass [('0', '9')] c = isDigit c := by
  simp [inClass, isDigit]

theorem inClass_nonzero_digit (c : Char) :
    inClass [('1', '9')] c = true ↔ isDigit c = true ∧ c ≠ '0' := by
  have h0 : ('0' : Char).toNat = 48 := by decide
  have h1 : ('1' : Char).toNat = 49 := by decide
  simp only [inClass, isDigit, charBetween, List.any_cons, List.any_nil, Bool.or_false,
    decide_eq_true_eq, ne_eq, char_eq_iff_toNat_eq, h0, h1]
  omega

/-- The part `[1-9]\d{1,14}` of the phone pattern matches the whole of `u` exactly when `u` is
2 to 15 digits of which the first is not zero. -/
theorem phone_body_iff (u : List Char) :
    [] ∈ (Regex.seq (.cls [('1', '9')]) (.rep (.cls [('0', '9')]) 1 14)).after u ↔
      2 ≤ u.length ∧ u.length ≤ 15 ∧ (∀ x ∈ u, isDigit x = true) ∧ u.head? ≠ some '0' := by
  cases u with
  | nil => simp [Regex.after]
  | cons c t =>
    have hstep : (Regex.seq (.cls [('1', '9')]) (.rep (.cls [('0', '9')]) 1 14)).after (c :: t) =
        (if inClass [('1', '9')] c then [t] else []).flatMap
          (repeatFrom (Regex.after (.cls [('0', '9')])) 1 14) := rfl
    rw [hstep]
    by_cases hc : inClass [('1', '9')] c = true
    · have hc2 := (inClass_nonzero_digit c).mp hc
      simp only [hc, if_true, List.flatMap_cons, List.flatMap_nil, List.append_nil]
      rw [repeatFrom_cls_nil_mem]
      simp only [inClass_digit, List.length_cons, List.mem_cons, forall_eq_or_imp, hc2.1,
        true_and, List.head?_cons, ne_eq, Option.some.injEq, hc2.2, not_false_eq_true, and_true]
      constructor
      · rintro ⟨h1, h2, h3⟩
        exact ⟨by omega, by omega, h3⟩
      · rintro ⟨h1, h2, h3⟩
        exact ⟨by omega, by omega, h3⟩
    · have hc2 : ¬ (isDigit c = true ∧ c ≠ '0') := fun h => hc ((inClass_nonzero_digit c).mpr h)
      simp only [hc, Bool.false_eq_true, if_false, List.flatMap_nil, List.not_mem_nil,
        false_iff]
      rintro ⟨-, -, h3, h4⟩
      apply hc2
      refine ⟨h3 c (List.mem_cons_self _ _), ?_⟩
      intro h
      apply h4
      simp [h]

theorem MatchString_phoneRegex (s : String) : phoneRegex.MatchString s = phoneRule s := by
  rw [Bool.eq_iff_iff, Regex.MatchString, contains_nil_iff]
  have hstep : phoneRegex.after s.data =
      ((Regex.cls [('+', '+')]).after s.data ++ [s.data]).flatMap
        (Regex.seq (.cls [('1', '9')]) (.rep (.cls [('0', '9')]) 1 14)).after := rfl
  have hrule : phoneRule s = true ↔
      2 ≤ (phoneDigits s.data).length ∧ (phoneDigits s.data).length ≤ 15 ∧
        (∀ x ∈ phoneDigits s.data, isDigit x = true) ∧ (phoneDigits s.data).head? ≠ some '0' := by
    simp [phoneRule, and_assoc]
  rw [hstep, hrule, ← phone_body_iff]
  cases hs : s.data with
  | nil => simp [Regex.after, phoneDigits]
  | cons c t =>
    have hplus : (Regex.cls [('+', '+')]).after (c :: t) =
        if inClass [('+', '+')] c then [t] else [] := rfl
    rw [hplus]
    by_cases hc : c = '+'
    · have h1 : inClass [('+', '+')] c = true := (inClass_plus c).mpr hc
      have h2 : [] ∉ (Regex.seq (.cls [('1', '9')]) (.rep (.cls [('0', '9')]) 1 14)).after
          (c :: t) := by
        rw [phone_body_iff]
        rintro ⟨-, -, h3, -⟩
        have := h3 c (List.mem_cons_self _ _)
        rw [hc] at this
        revert this
        decide
      subst hc
      rw [h1]
      simp [phoneDigits, h2]
    · have h1 : inClass [('+', '+')] c = false := by
        rw [Bool.eq_false_iff]
        exact fun h => hc ((inClass_plus c).mp h)
      simp [h1, phoneDigits, hc]

/-! ## Facts about the validation of an address -/

/-- The checks of `Validate`, with each pattern replaced by the rule it stands for. -/
theorem Validate_eq_rules (a : DeliveryAddress) :
    a.Validate =
      if a.UserID = "" then some .ErrInvalidUserID
      else if nameRule isPerlSpace a.FullName = false then some .ErrInvalidFullName
      else if len a.StreetAddress < 5 then some .ErrInvalidStreetAddress
      else if len a.City < 2 then some .ErrInvalidCity
      else if len a.State < 2 then some .ErrInvalidState
      else if postalRule a.PostalCode = false then some .ErrInvalidPostalCode
      else if len a.Country < 2 then some .ErrInvalidCountry
      else if phoneRule a.Phone = false then some .ErrInvalidPhone
      else none := by
  simp only [DeliveryAddress.Validate, MatchString_nameRegex, MatchString_postalRegex,
    MatchString_phoneRegex, Bool.not_eq_true']

/-! ## C11: when an address is valid -/

/-- C11, refuted as stated: the example address with the one-character city `é` (two bytes in
UTF-8) passes `Validate`, although a city must have at least 2 characters; and the example
address with a tab inside the full name passes `Validate`, although a tab is neither a letter
nor a space, a hyphen or an apostrophe. -/
theorem Validate_counts_bytes_counterexample :
    ({ sampleAddress with City := "é" } : DeliveryAddress).Validate = none ∧
      ("é" : String).length = 1 ∧ len "é" = 2 ∧
      addressRule String.length isBlank { sampleAddress with City := "é" } = false ∧
      ({ sampleAddress with FullName := sampleTabName } : DeliveryAddress).Validate = none ∧
      addressRule String.length isBlank { sampleAddress with FullName := sampleTabName }
        = false := by
  decide

/-- C11, amended: `Validate` returns no error if and only if the user id is non-empty; the full
name has 2 to 100 characters, each an ASCII letter, a white-space character (space, tab, line
feed, form feed, carriage return), a hyphen or an apostrophe; the street address has at least
5 bytes; city, state and country each have at least 2 bytes; the postal code has 3 to 10
characters, each an ASCII digit or upper-case letter; and the phone is an optional leading `+`
followed by 2 to 15 digits whose first digit is not zero. The lengths of street, city, state
and country are counted in bytes of the UTF-8 encoding. -/
theorem Validate_none_iff (a : DeliveryAddress) :
    a.Validate = none ↔ addressRule len isPerlSpace a = true := by
  rw [Validate_eq_rules]
  by_cases h1 : a.UserID = ""
  · simp [addressRule, h1]
  by_cases h2 : nameRule isPerlSpace a.FullName = false
  · simp [addressRule, h1, h2]
  by_cases h3 : len a.StreetAddress < 5
  · simp [addressRule, h1, h2, h3]
  by_cases h4 : len a.City < 2
  · simp [addressRule, h1, h2, h3, h4]
  by_cases h5 : len a.State < 2
  · simp [addressRule, h1, h2, h3, h4, h5]
  by_cases h6 : postalRule a.PostalCode = false
  · simp [addressRule, h1, h2, h3, h4, h5, h6]
  by_cases h7 : len a.Country < 2
  · simp [addressRule, h1, h2, h3, h4, h5, h6, h7]
  by_cases h8 : phoneRule a.Phone = false
  · simp [addressRule, h1, h2, h3, h4, h5, h6, h7, h8]
  · simp only [if_neg h1, if_neg h2, if_neg h3, if_neg h4, if_neg h5, if_neg h6, if_neg h7,
      if_neg h8, true_iff]
    simp only [Bool.not_eq_false] at h2 h6 h8
    simp only [not_lt] at h3 h4 h5 h7
    simp [addressRule, h1, h2, h3, h4, h5, h6, h7, h8]

theorem Validate_none_iff_witness :
    addressRule len isPerlSpace sampleAddress = true ∧ sampleAddress.Validate = none :=
  ⟨by decide, (Validate_none_iff sampleAddress).mpr (by decide)⟩

/-- What `NewDeliveryAddress` returns, in terms of `Validate` on the address built from the
trimmed arguments. -/
theorem NewDeliveryAddress_eq (userID fullName streetAddress apartment city state postalCode
    country phone : String) (isDefault : Bool) :
    NewDeliveryAddress userID fullName streetAddress apartment city state postalCode country
        phone isDefault =
      match (trimmedAddress userID fullName streetAddress apartment city state postalCode
          country phone isDefault).Validate with
      | some err => .error err
      | none => .ok (trimmedAddress userID fullName streetAddress apartment city state
          postalCode country phone isDefault) := rfl

theorem NewDeliveryAddress_error_iff (userID fullName streetAddress apartment city state
    postalCode country phone : String) (isDefault : Bool) (e : Error) :
    NewDeliveryAddress userID fullName streetAddress apartment city state postalCode country
        phone isDefault = .error e ↔
      (trimmedAddress userID fullName streetAddress apartment city state postalCode
          country phone isDefault).Validate = some e := by
  rw [NewDeliveryAddress_eq]
  cases (trimmedAddress userID fullName streetAddress apartment city state postalCode
          country phone isDefault).Validate <;> simp

theorem NewDeliveryAddress_ok_iff (userID fullName streetAddress apartment city state
    postalCode country phone : String) (isDefault : Bool) (a : DeliveryAddress) :
    NewDeliveryAddress userID fullName streetAddress apartment city state postalCode country
        phone isDefault = .ok a ↔
      (trimmedAddress userID fullName streetAddress apartment city state postalCode
          country phone isDefault).Validate = none ∧
      a = trimmedAddress userID fullName streetAddress apartment city state postalCode
          country phone isDefault := by
  rw [NewDeliveryAddress_eq]
  cases (trimmedAddress userID fullName streetAddress apartment city state postalCode
          country phone isDefault).Validate <;> simp [eq_comm]

/-! ## C12: the error of the first failing rule -/

/-- C12: `Validate` returns the error of the first rule that fails, in the order user id, full
name, street, city, state, postal code, country, phone; `NewDeliveryAddress` fails with the
error that `Validate` returns for the address built from its trimmed arguments; the example
address is constructed, with postal code `!!` the construction fails with
`ErrInvalidPostalCode` and with phone `0123` with `ErrInvalidPhone`. -/
theorem Validate_first_failing_rule (a : DeliveryAddress)
    (userID fullName streetAddress apartment city state postalCode country phone : String)
    (isDefault : Bool) :
    (a.Validate = some .ErrInvalidUserID ↔ a.UserID = "") ∧
    (a.Validate = some .ErrInvalidFullName ↔
      a.UserID ≠ "" ∧ nameRegex.MatchString a.FullName = false) ∧
    (a.Validate = some .ErrInvalidStreetAddress ↔
      a.UserID ≠ "" ∧ nameRegex.MatchString a.FullName = true ∧ len a.StreetAddress < 5) ∧
    (a.Validate = some .ErrInvalidCity ↔
      a.UserID ≠ "" ∧ nameRegex.MatchString a.FullName = true ∧ 5 ≤ len a.StreetAddress ∧
        len a.City < 2) ∧
    (a.Validate = some .ErrInvalidState ↔
      a.UserID ≠ "" ∧ nameRegex.MatchString a.FullName = true ∧ 5 ≤ len a.StreetAddress ∧
        2 ≤ len a.City ∧ len a.State < 2) ∧
    (a.Validate = some .ErrInvalidPostalCode ↔
      a.UserID ≠ "" ∧ nameRegex.MatchString a.FullName = true ∧ 5 ≤ len a.StreetAddress ∧
        2 ≤ len a.City ∧ 2 ≤ len a.State ∧ postalRegex.MatchString a.PostalCode = false) ∧
    (a.Validate = some .ErrInvalidCountry ↔
      a.UserID ≠ "" ∧ nameRegex.MatchString a.FullName = true ∧ 5 ≤ len a.StreetAddress ∧
        2 ≤ len a.City ∧ 2 ≤ len a.State ∧ postalRegex.MatchString a.PostalCode = true ∧
        len a.Country < 2) ∧
    (a.Validate = some .ErrInvalidPhone ↔
      a.UserID ≠ "" ∧ nameRegex.MatchString a.FullName = true ∧ 5 ≤ len a.StreetAddress ∧
        2 ≤ len a.City ∧ 2 ≤ len a.State ∧ postalRegex.MatchString a.PostalCode = true ∧
        2 ≤ len a.Country ∧ phoneRegex.MatchString a.Phone = false) ∧
    (∀ e, a.Validate = some e → e ∈ [Error.ErrInvalidUserID, .ErrInvalidFullName,
      .ErrInvalidStreetAddress, .ErrInvalidCity, .ErrInvalidState, .ErrInvalidPostalCode,
      .ErrInvalidCountry, .ErrInvalidPhone]) ∧
    (∀ e, NewDeliveryAddress userID fullName streetAddress apartment city state postalCode
        country phone isDefault = .error e ↔
      (trimmedAddress userID fullName streetAddress apartment city state postalCode country
        phone isDefault).Validate = some e) ∧
    NewDeliveryAddress "u-1" "John Doe" "123 Main Street" "" "Springfield" "IL" "62704" "USA"
        "+12025550123" false = .ok sampleAddress ∧
    NewDeliveryAddress "u-1" "John Doe" "123 Main Street" "" "Springfield" "IL" "!!" "USA"
        "+12025550123" false = .error .ErrInvalidPostalCode ∧
    NewDeliveryAddress "u-1" "John Doe" "123 Main Street" "" "Springfield" "IL" "62704" "USA"
        "0123" false = .error .ErrInvalidPhone := by
  have hex : NewDeliveryAddress "u-1" "John Doe" "123 Main Street" "" "Springfield" "IL" "62704"
        "USA" "+12025550123" false = .ok sampleAddress ∧
      NewDeliveryAddress "u-1" "John Doe" "123 Main Street" "" "Springfield" "IL" "!!" "USA"
        "+12025550123" false = .error .ErrInvalidPostalCode ∧
      NewDeliveryAddress "u-1" "John Doe" "123 Main Street" "" "Springfield" "IL" "62704" "USA"
        "0123" false = .error .ErrInvalidPhone := by
    decide
  have hnew := fun e => NewDeliveryAddress_error_iff userID fullName streetAddress apartment
    city state postalCode country phone isDefault e
  refine ⟨?_, ?_, ?_, ?_, ?_, ?_, ?_, ?_, ?_, hnew, hex⟩
  all_goals
    clear hnew hex
    by_cases h1 : a.UserID = ""
    · simp [DeliveryAddress.Validate, h1]
    by_cases h2 : nameRegex.MatchString a.FullName = true
    swap
    · simp [DeliveryAddress.Validate, h1, h2]
    by_cases h3 : len a.StreetAddress < 5
    · simp [DeliveryAddress.Validate, h1, h2, h3]
    have g3 : 5 ≤ len a.StreetAddress := not_lt.mp h3
    by_cases h4 : len a.City < 2
    · simp [DeliveryAddress.Validate, h1, h2, h3, h4, g3]
    have g4 : 2 ≤ len a.City := not_lt.mp h4
    by_cases h5 : len a.State < 2
    · simp [DeliveryAddress.Validate, h1, h2, h3, h4, h5, g3, g4]
    have g5 : 2 ≤ len a.State := not_lt.mp h5
    by_cases h6 : postalRegex.MatchString a.PostalCode = true
    swap
    · simp [DeliveryAddress.Validate, h1, h2, h3, h4, h5, h6, g3, g4, g5]
    by_cases h7 : len a.Country < 2
    · simp [DeliveryAddress.Validate, h1, h2, h3, h4, h5, h6, h7, g3, g4, g5]
    have g7 : 2 ≤ len a.Country := not_lt.mp h7
    by_cases h8 : phoneRegex.MatchString a.Phone = true
    · simp [DeliveryAddress.Validate, h1, h2, h3, h4, h5, h6, h7, h8]
    · simp [DeliveryAddress.Validate, h1, h2, h3, h4, h5, h6, h7, h8, g3, g4, g5, g7]

theorem Validate_first_failing_rule_witness :
    ({ sampleAddress with City := "X", Phone := "0123" } : DeliveryAddress).Validate =
        some .ErrInvalidCity ∧
      NewDeliveryAddress "u-1" "John Doe" "123 Main Street" "" " X " "IL" "62704" "USA" "0123"
        false = .error .ErrInvalidCity :=
  ⟨(Validate_first_failing_rule { sampleAddress with City := "X", Phone := "0123" }
      "" "" "" "" "" "" "" "" "" false).2.2.2.1.mpr
      ⟨by decide, by decide, by decide, by decide⟩,
   ((Validate_first_failing_rule sampleAddress "u-1" "John Doe" "123 Main Street" "" " X " "IL"
      "62704" "USA" "0123" false).2.2.2.2.2.2.2.2.2.1 .ErrInvalidCity).mpr (by decide)⟩

/-! ## Facts about `TrimSpace` -/

theorem trim_head_not_space (l : List Char) (c : Char)
    (h : ((l.dropWhile isSpace).rdropWhile isSpace).head? = some c) : isSpace c = false := by
  have hpre : (l.dropWhile isSpace).rdropWhile isSpace <+: l.dropWhile isSpace :=
    List.rdropWhile_prefix _ _
  obtain ⟨r, hr⟩ := hpre
  have h2 : (l.dropWhile isSpace).head? = some c := by
    rw [← hr]
    cases ht : (l.dropWhile isSpace).rdropWhile isSpace with
    | nil => rw [ht] at h; simp at h
    | cons x t => rw [ht] at h; simpa using h
  have h3 := List.head?_dropWhile_not isSpace l
  rw [h2] at h3
  exact h3

theorem trim_last_not_space (l : List Char) (c : Char)
    (h : ((l.dropWhile isSpace).rdropWhile isSpace).getLast? = some c) : isSpace c = false := by
  have hne : (l.dropWhile isSpace).rdropWhile isSpace ≠ [] := by
    intro h0
    rw [h0] at h
    simp at h
  have h1 := List.rdropWhile_last_not isSpace (l.dropWhile isSpace) hne
  rw [List.getLast?_eq_getLast _ hne] at h
  simp only [Option.some.injEq] at h
  rw [h] at h1
  simpa using h1

theorem rdropWhile_append_of_pos (p : Char → Bool) (l ws : List Char) (h : ∀ c ∈ ws, p c = true) :
    (l ++ ws).rdropWhile p = l.rdropWhile p := by
  simp only [List.rdropWhile, List.reverse_append]
  rw [List.dropWhile_append_of_pos]
  intro a ha
  exact h a (List.mem_reverse.mp ha)

theorem trim_append_space (l ws : List Char) (h : ∀ c ∈ ws, isSpace c = true) :
    ((l ++ ws).dropWhile isSpace).rdropWhile isSpace =
      (l.dropWhile isSpace).rdropWhile isSpace := by
  induction l with
  | nil =>
    have : ([] ++ ws).dropWhile isSpace = [] := by
      simpa [List.dropWhile_eq_nil_iff] using h
    rw [this]
    simp
  | cons c t ih =>
    by_cases hc : isSpace c = true
    · simpa [List.dropWhile_cons_of_pos hc] using ih
    · rw [List.cons_append, List.dropWhile_cons_of_neg hc, List.dropWhile_cons_of_neg hc,
        ← List.cons_append]
      exact rdropWhile_append_of_pos isSpace (c :: t) ws h

/-- White space around a string does not change what `TrimSpace` returns. -/
theorem TrimSpace_pad (p q s : String) (hp : ∀ c ∈ p.data, isSpace c = true)
    (hq : ∀ c ∈ q.data, isSpace c = true) : TrimSpace (p ++ s ++ q) = TrimSpace s := by
  simp only [TrimSpace, String.data_append, List.append_assoc]
  rw [List.dropWhile_append_of_pos hp, trim_append_space s.data q.data hq]

/-- What `TrimSpace` returns neither begins nor ends with white space. -/
theorem TrimSpace_no_surrounding_space (s : String) (c : Char)
    (h : (TrimSpace s).data.head? = some c ∨ (TrimSpace s).data.getLast? = some c) :
    isSpace c = false := by
  rcases h with h | h
  · exact trim_head_not_space s.data c h
  · exact trim_last_not_space s.data c h

/-! ## C13: trimming -/

/-- C13: when `NewDeliveryAddress` succeeds, each free-text field of the returned address is
the corresponding argument with its surrounding white space removed, so that no stored field
begins or ends with white space; `NewDeliveryAddress` succeeds exactly when `Validate` accepts
the address built from the trimmed arguments; and white space put around the arguments does
not change the result. -/
theorem NewDeliveryAddress_trims (userID fullName streetAddress apartment city state postalCode
    country phone : String) (isDefault : Bool) :
    (∀ a, NewDeliveryAddress userID fullName streetAddress apartment city state postalCode
        country phone isDefault = .ok a →
      (a.FullName = TrimSpace fullName ∧ a.StreetAddress = TrimSpace streetAddress ∧
        a.Apartment = TrimSpace apartment ∧ a.City = TrimSpace city ∧
        a.State = TrimSpace state ∧ a.PostalCode = TrimSpace postalCode ∧
        a.Country = TrimSpace country ∧ a.Phone = TrimSpace phone) ∧
      ∀ f ∈ [a.FullName, a.StreetAddress, a.Apartment, a.City, a.State, a.PostalCode,
          a.Country, a.Phone],
        ∀ c, f.data.head? = some c ∨ f.data.getLast? = some c → isSpace c = false) ∧
    ((∃ a, NewDeliveryAddress userID fullName streetAddress apartment city state postalCode
        country phone isDefault = .ok a) ↔
      (trimmedAddress userID fullName streetAddress apartment city state postalCode country
        phone isDefault).Validate = none) ∧
    (∀ p q : String, (∀ c ∈ p.data, isSpace c = true) → (∀ c ∈ q.data, isSpace c = true) →
      NewDeliveryAddress userID (p ++ fullName ++ q) (p ++ streetAddress ++ q)
          (p ++ apartment ++ q) (p ++ city ++ q) (p ++ state ++ q) (p ++ postalCode ++ q)
          (p ++ country ++ q) (p ++ phone ++ q) isDefault =
        NewDeliveryAddress userID fullName streetAddress apartment city state postalCode
          country phone isDefault) := by
  refine ⟨?_, ?_, ?_⟩
  · intro a ha
    obtain ⟨-, rfl⟩ := (NewDeliveryAddress_ok_iff _ _ _ _ _ _ _ _ _ _ a).mp ha
    refine ⟨⟨rfl, rfl, rfl, rfl, rfl, rfl, rfl, rfl⟩, ?_⟩
    intro f hf c hc
    simp only [trimmedAddress, List.mem_cons, List.mem_singleton, List.not_mem_nil,
      or_false] at hf
    rcases hf with rfl | rfl | rfl | rfl | rfl | rfl | rfl | rfl <;>
      exact TrimSpace_no_surrounding_space _ c hc
  · constructor
    · rintro ⟨a, ha⟩
      exact ((NewDeliveryAddress_ok_iff _ _ _ _ _ _ _ _ _ _ a).mp ha).1
    · intro h
      exact ⟨_, (NewDeliveryAddress_ok_iff _ _ _ _ _ _ _ _ _ _ _).mpr ⟨h, rfl⟩⟩
  · intro p q hp hq
    simp only [NewDeliveryAddress, TrimSpace_pad p q _ hp hq]

theorem NewDeliveryAddress_trims_witness :
    NewDeliveryAddress "u-1" "  John Doe " " 123 Main Street" "" "Springfield  " "IL" " 62704 "
        "USA" " +12025550123 " false = .ok sampleAddress ∧
      sampleAddress.FullName = TrimSpace "  John Doe " ∧
      sampleAddress.FullName = "John Doe" :=
  ⟨by decide,
   ((NewDeliveryAddress_trims "u-1" "  John Doe " " 123 Main Street" "" "Springfield  " "IL"
      " 62704 " "USA" " +12025550123 " false).1 sampleAddress (by decide)).1.1,
   by decide⟩

/-! ## C14: the rendering of an address -/

/-- C14: `FormatFull` returns street, city, state, postal code and country joined by `, ` when
the apartment is empty, and street, apartment, city, state, postal code and country joined by
`, ` when it is not: the apartment, when there is one, comes right after the street, and an
empty apartment leaves no separator behind. -/
theorem FormatFull_eq (a : DeliveryAddress) :
    (a.Apartment = "" →
      a.FormatFull = Join [a.StreetAddress, a.City, a.State, a.PostalCode, a.Country] ", " ∧
      a.FormatFull = a.StreetAddress ++ ", " ++ a.City ++ ", " ++ a.State ++ ", " ++
        a.PostalCode ++ ", " ++ a.Country) ∧
    (a.Apartment ≠ "" →
      a.FormatFull =
        Join [a.StreetAddress, a.Apartment, a.City, a.State, a.PostalCode, a.Country] ", " ∧
      a.FormatFull = a.StreetAddress ++ ", " ++ a.Apartment ++ ", " ++ a.City ++ ", " ++
        a.State ++ ", " ++ a.PostalCode ++ ", " ++ a.Country) := by
  constructor
  · intro h
    simp [DeliveryAddress.FormatFull, Join, h, String.intercalate, String.intercalate.go]
  · intro h
    simp [DeliveryAddress.FormatFull, Join, h, String.intercalate, String.intercalate.go]

theorem FormatFull_eq_witness :
    sampleAddress.FormatFull = "123 Main Street, Springfield, IL, 62704, USA" ∧
      ({ sampleAddress with Apartment := "Apt 4" } : DeliveryAddress).FormatFull =
        "123 Main Street, Apt 4, Springfield, IL, 62704, USA" :=
  ⟨((FormatFull_eq sampleAddress).1 rfl).2.trans (by decide),
   ((FormatFull_eq { sampleAddress with Apartment := "Apt 4" }).2 (by decide)).2.trans
     (by decide)⟩

/-! ## C15: `Update` and `NewDeliveryAddress` -/

/-- The validation in `Update` is the validation of the address that `NewDeliveryAddress`
builds from the same arguments, the user id of the receiver and its default flag. -/
theorem Update_validate_eq (a : DeliveryAddress) (fullName streetAddress apartment city state
    postalCode country phone : String) :
    (a.Update fullName streetAddress apartment city state postalCode country phone).1 =
      (trimmedAddress a.UserID fullName streetAddress apartment city state postalCode country
        phone a.IsDefault).Validate := rfl

/-- C15: `a.Update(args)` returns an error exactly when
`NewDeliveryAddress(a.UserID, args, a.IsDefault)` does, and then the same error; when both
succeed, the address after `Update` has the free-text fields of the constructed address and
the `ID`, `UserID` and `IsDefault` it had before. -/
theorem Update_agrees_with_NewDeliveryAddress (a : DeliveryAddress) (fullName streetAddress
    apartment city state postalCode country phone : String) :
    (∀ e, (a.Update fullName streetAddress apartment city state postalCode country phone).1
        = some e ↔
      NewDeliveryAddress a.UserID fullName streetAddress apartment city state postalCode
        country phone a.IsDefault = .error e) ∧
    (∀ b, (a.Update fullName streetAddress apartment city state postalCode country phone).1
        = none →
      NewDeliveryAddress a.UserID fullName streetAddress apartment city state postalCode
        country phone a.IsDefault = .ok b →
      (a.Update fullName streetAddress apartment city state postalCode country phone).2 =
        { b with ID := a.ID }) ∧
    ((a.Update fullName streetAddress apartment city state postalCode country phone).2.ID
        = a.ID ∧
      (a.Update fullName streetAddress apartment city state postalCode country phone).2.UserID
        = a.UserID ∧
      (a.Update fullName streetAddress apartment city state postalCode country
        phone).2.IsDefault = a.IsDefault) := by
  refine ⟨?_, ?_, rfl, rfl, rfl⟩
  · intro e
    rw [Update_validate_eq, NewDeliveryAddress_error_iff]
  · intro b _ hb
    obtain ⟨-, rfl⟩ := (NewDeliveryAddress_ok_iff _ _ _ _ _ _ _ _ _ _ b).mp hb
    rfl

theorem Update_agrees_with_NewDeliveryAddress_witness :
    (({ sampleAddress with ID := "a-7", City := "Shelbyville" } : DeliveryAddress).Update
        " Jane Roe" "9 Elm Street" "" "Springfield" "IL" "!!" "USA" "+12025550123").1 =
        some .ErrInvalidPostalCode ∧
      NewDeliveryAddress "u-1" " Jane Roe" "9 Elm Street" "" "Springfield" "IL" "!!" "USA"
        "+12025550123" false = .error .ErrInvalidPostalCode ∧
      (({ sampleAddress with ID := "a-7", City := "Shelbyville" } : DeliveryAddress).Update
        " John Doe" "123 Main Street " "" "Springfield" "IL" "62704" "USA" "+12025550123").2 =
        { sampleAddress with ID := "a-7" } :=
  ⟨by decide,
   ((Update_agrees_with_NewDeliveryAddress
      { sampleAddress with ID := "a-7", City := "Shelbyville" } " Jane Roe" "9 Elm Street" ""
      "Springfield" "IL" "!!" "USA" "+12025550123").1 .ErrInvalidPostalCode).mp (by decide),
   (Update_agrees_with_NewDeliveryAddress
      { sampleAddress with ID := "a-7", City := "Shelbyville" } " John Doe" "123 Main Street "
      "" "Springfield" "IL" "62704" "USA" "+12025550123").2.1 sampleAddress (by decide)
      (by decide)⟩

/-! ## C16: the timestamps -/

/-- C16, at the failing input: on a clock whose successive readings are 1000, 1001 and 1002,
`NewOrder` uses the first reading for the check of the delivery time, the second for
`CreatedAt` and the third for `UpdatedAt`, so the two timestamps of the new order differ. -/
theorem NewOrder_timestamps_differ :
    (NewOrder "u-1" [samplePens, sampleBook] none ⟨2000⟩ sampleClock).1 = .ok sampleCreated ∧
      sampleCreated.CreatedAt = ⟨1001⟩ ∧ sampleCreated.UpdatedAt = ⟨1002⟩ ∧
      sampleCreated.CreatedAt ≠ sampleCreated.UpdatedAt := by
  decide

/-- The timestamps of a new order are the second and the third reading of the clock taken by
`NewOrder`; they are equal exactly when these two readings are. -/
theorem NewOrder_timestamps (userID : String) (items : List OrderItem)
    (addr : Option DeliveryAddress) (t : Time) (clk : Clock) (o : Order)
    (h : (NewOrder userID items addr t clk).1 = .ok o) :
    o.CreatedAt = clk.Now.2.Now.1 ∧ o.UpdatedAt = clk.Now.2.Now.2.Now.1 ∧
      (o.CreatedAt = o.UpdatedAt ↔ clk.Now.2.Now.1 = clk.Now.2.Now.2.Now.1) := by
  obtain ⟨-, -, -, -, rfl⟩ := NewOrder_ok_inv userID items addr t clk o h
  exact ⟨rfl, rfl, Iff.rfl⟩

/-- After every successful mutation `UpdatedAt` is the reading of the clock that the call took
for it (for `UpdateDeliveryTime` the second reading of the call, the first one being used for
the check), and `CreatedAt` is unchanged. -/
theorem mutators_set_updatedAt (o : Order) (clk : Clock) (t : Time)
    (address : Option DeliveryAddress) (status : OrderStatus) :
    ((o.UpdateStatus status clk).1.UpdatedAt = clk.Now.1 ∧
      (o.UpdateStatus status clk).1.CreatedAt = o.CreatedAt) ∧
    ((o.UpdateDeliveryTime t clk).1 = none →
      (o.UpdateDeliveryTime t clk).2.1.UpdatedAt = clk.Now.2.Now.1 ∧
        (o.UpdateDeliveryTime t clk).2.1.CreatedAt = o.CreatedAt) ∧
    ((o.UpdateDeliveryAddress address clk).1.UpdatedAt = clk.Now.1 ∧
      (o.UpdateDeliveryAddress address clk).1.CreatedAt = o.CreatedAt) ∧
    ((o.Cancel clk).1 = none →
      (o.Cancel clk).2.1.UpdatedAt = clk.Now.1 ∧ (o.Cancel clk).2.1.CreatedAt = o.CreatedAt) ∧
    ((o.MarkAsPaid clk).1.Status ≠ o.Status →
      (o.MarkAsPaid clk).1.UpdatedAt = clk.Now.1 ∧
        (o.MarkAsPaid clk).1.CreatedAt = o.CreatedAt) ∧
    ((o.MarkAsAwaitingPayment clk).1.Status ≠ o.Status →
      (o.MarkAsAwaitingPayment clk).1.UpdatedAt = clk.Now.1 ∧
        (o.MarkAsAwaitingPayment clk).1.CreatedAt = o.CreatedAt) := by
  refine ⟨⟨rfl, rfl⟩, ?_, ⟨rfl, rfl⟩, ?_, ?_, ?_⟩
  · unfold Order.UpdateDeliveryTime
    by_cases hb : t.Before clk.Now.1 = true <;> simp [hb]
  · unfold Order.Cancel
    by_cases hc : o.CanBeCancelled = true <;> simp [hc]
  · unfold Order.MarkAsPaid
    by_cases hc : o.CanBePaid = true <;> simp [hc]
  · unfold Order.MarkAsAwaitingPayment
    by_cases hc : (o.Status == OrderStatusCreated) = true <;> simp [hc]

/-! ## C17: the `CreateOrder` operation -/

/-- `CreateOrder` returns the status error `Unimplemented` for every request: it never returns
an order and never returns an error of package `domain`. -/
theorem CreateOrder_unimplemented (req : CreateOrderRequest) :
    OrderHandler.CreateOrder req =
        .error (.status .Unimplemented "method CreateOrder not implemented") ∧
      (∀ e : Error, OrderHandler.CreateOrder req ≠ .error (.domain e)) ∧
      (∀ o : Order, OrderHandler.CreateOrder req ≠ .ok o) := by
  refine ⟨rfl, ?_, ?_⟩
  · intro e h
    simp [OrderHandler.CreateOrder] at h
  · intro o h
    simp [OrderHandler.CreateOrder] at h

/-- C17, at the failing input: for a request with an empty user id, `NewOrder` rejects the
input with `ErrInvalidUserID`, while `CreateOrder` returns the status error `Unimplemented`,
which is not that construction error. -/
theorem CreateOrder_ignores_construction_error :
    (NewOrder "" [samplePens] none ⟨2000⟩ sampleClock).1 = .error .ErrInvalidUserID ∧
      OrderHandler.CreateOrder ⟨"", [samplePens], none, ⟨2000⟩⟩ =
        .error (.status .Unimplemented "method CreateOrder not implemented") ∧
      OrderHandler.CreateOrder ⟨"", [samplePens], none, ⟨2000⟩⟩ ≠
        .error (.domain .ErrInvalidUserID) := by
  decide

end OrderService
